import Mathlib

/-!
Verification of the hyperplexity MCP job-wait subsystem: the `wait_for_job`
polling loop of `tools/jobs.py` (progress geometry, cursor tracking, phase
classification, timeout handling) and the guidance dispatch of `guidance.py`.

Python values flowing through the subsystem are JSON-like; they are embedded
as the inductive `JVal`. Python operations that can raise (`.get` on a
non-dict, `.lower()` on a non-string, `float()` / `int()` conversions,
subscripting) are embedded in the `Except String` monad, so the `try/except`
blocks of the source can be modelled faithfully, including the partial
mutations already performed when an exception interrupts a block.

Float arithmetic of the source (progress percentages) is modelled by exact
rationals `ℚ`; rounding of IEEE floats is abstracted away. Textual rendering
of numbers inside f-strings (`qRepr`, `format2f`) is a stand-in for Python's
repr; no property proved here depends on that textual form.
-/

namespace Hyperplexity

/-- A JSON-like Python value: the data the subsystem reads and writes. -/
inductive JVal where
  | null
  | bool (b : Bool)
  | num (q : ℚ)
  | str (s : String)
  | arr (elems : List JVal)
  | obj (fields : List (String × JVal))

/-- A Python dict with string keys, as an association list (insertion order
kept, keys unique in well-formed dicts; lookups take the first hit). -/
abbrev JDict := List (String × JVal)

mutual

/-- Structural equality of embedded values (Python `==` restricted to
JSON-like data; the numeric bool/int identification of Python is not needed
by any property proved here). -/
def jvalBEq : JVal → JVal → Bool
  | .null, .null => true
  | .bool a, .bool b => a == b
  | .num a, .num b => a == b
  | .str a, .str b => a == b
  | .arr xs, .arr ys => jvalListBEq xs ys
  | .obj xs, .obj ys => jvalObjBEq xs ys
  | _, _ => false

/-- Elementwise `jvalBEq` on lists. -/
def jvalListBEq : List JVal → List JVal → Bool
  | [], [] => true
  | x :: xs, y :: ys => jvalBEq x y && jvalListBEq xs ys
  | _, _ => false

/-- Pairwise `jvalBEq` on dict entries. -/
def jvalObjBEq : List (String × JVal) → List (String × JVal) → Bool
  | [], [] => true
  | (k1, v1) :: xs, (k2, v2) :: ys => k1 == k2 && jvalBEq v1 v2 && jvalObjBEq xs ys
  | _, _ => false

end

instance : BEq JVal := ⟨jvalBEq⟩

/-- Python `v is None`. -/
def isNull : JVal → Bool
  | .null => true
  | _ => false

/-- The embedding of a fallible Python expression: `.error msg` is a raised
exception carrying its message. -/
abbrev Py (α : Type) := Except String α

/-- Key lookup in a dict: `some v` iff the key is present (even with a falsy
or `None` value) — the explicit `key in payload` presence check. -/
def jget? (d : JDict) (k : String) : Option JVal :=
  (d.find? (fun p => p.1 == k)).map (fun p => p.2)

/-- Python `d.get(k)`: `None` when the key is absent. -/
def pyGet (d : JDict) (k : String) : JVal := (jget? d k).getD .null

/-- Python `d.get(k, default)`. -/
def pyGetD (d : JDict) (k : String) (dflt : JVal) : JVal := (jget? d k).getD dflt

/-- Python `d[k] = v`: replace in place when the key exists, else append. -/
def jset (d : JDict) (k : String) (v : JVal) : JDict :=
  if d.any (fun p => p.1 == k) then
    d.map (fun p => if p.1 == k then (k, v) else p)
  else d ++ [(k, v)]

/-- Python truthiness: `None`, `False`, `0`, `""`, `[]`, `{}` are falsy. -/
def truthy : JVal → Bool
  | .null => false
  | .bool b => b
  | .num q => !(q == 0)
  | .str s => !(s == "")
  | .arr xs => !xs.isEmpty
  | .obj fs => !fs.isEmpty

/-- Python `a or b` (both operands already evaluated). -/
def pyOr (a b : JVal) : JVal := if truthy a then a else b

/-- Python `v == "lit"` for a string literal: only equal strings compare
equal. -/
def pyEqStr (v : JVal) (s : String) : Bool :=
  match v with
  | .str t => t == s
  | _ => false

/-- Lowercasing written over the character list (the meaning of
`String.toLower`, in a form kernel reduction can evaluate). -/
def strLower (s : String) : String := String.mk (s.data.map Char.toLower)

/-- Whitespace stripping written over the character list (the meaning of
`String.trim` on the inputs modelled here). -/
def strTrim (s : String) : String :=
  String.mk (((s.data.dropWhile Char.isWhitespace).reverse.dropWhile Char.isWhitespace).reverse)

/-- Python `v.lower()`: raises `AttributeError` on a non-string. -/
def pyLower : JVal → Py String
  | .str s => .ok (strLower s)
  | _ => .error "AttributeError: lower"

/-- Python `v.get(k)`: raises `AttributeError` on a non-dict receiver. -/
def pyDotGet : JVal → String → Py JVal
  | .obj fs, k => .ok (pyGet fs k)
  | _, _ => .error "AttributeError: get"

/-- Python `v.get(k, default)`: raises `AttributeError` on a non-dict. -/
def pyDotGetD : JVal → String → JVal → Py JVal
  | .obj fs, k, dflt => .ok (pyGetD fs k dflt)
  | _, _, _ => .error "AttributeError: get"

/-- Python `v[0]`. -/
def pyFirstItem : JVal → Py JVal
  | .arr (x :: _) => .ok x
  | .arr [] => .error "IndexError"
  | .str s =>
    match s.data with
    | c :: _ => .ok (.str (String.mk [c]))
    | [] => .error "IndexError"
  | .obj _ => .error "KeyError"
  | _ => .error "TypeError: not subscriptable"

/-- Python `v[-1]`. -/
def pyLastItem : JVal → Py JVal
  | .arr xs =>
    match xs.getLast? with
    | some x => .ok x
    | none => .error "IndexError"
  | .str s =>
    match s.data.getLast? with
    | some c => .ok (.str (String.mk [c]))
    | none => .error "IndexError"
  | .obj _ => .error "KeyError"
  | _ => .error "TypeError: not subscriptable"

/-- Python `reversed(v)` materialised: lists reverse, strings yield their
characters reversed, dicts their keys reversed; other values raise. -/
def pyReversed : JVal → Py (List JVal)
  | .arr xs => .ok xs.reverse
  | .str s => .ok (s.data.reverse.map (fun c => .str (String.mk [c])))
  | .obj fs => .ok (fs.reverse.map (fun p => .str p.1))
  | _ => .error "TypeError: not reversible"

/-- Python `iter(v)` materialised (lists, strings, dict keys). -/
def pyIter : JVal → Py (List JVal)
  | .arr xs => .ok xs
  | .str s => .ok (s.data.map (fun c => .str (String.mk [c])))
  | .obj fs => .ok (fs.map (fun p => .str p.1))
  | _ => .error "TypeError: not iterable"

/-- Python `len(v)`. -/
def pyLen : JVal → Py ℕ
  | .arr xs => .ok xs.length
  | .str s => .ok s.length
  | .obj fs => .ok fs.length
  | _ => .error "TypeError: len"

/-- The value of a digit run (caller guarantees the characters are digits). -/
def digitsVal (cs : List Char) : ℕ :=
  cs.foldl (fun a c => a * 10 + (c.toNat - 48)) 0

/-- A decimal literal as Python `float()` parses it: optional sign, digits,
optional fraction, surrounding whitespace stripped. Exponent and `inf`/`nan`
forms are out of the modelled fragment. -/
def parseDecimal? (s : String) : Option ℚ :=
  let t := (strTrim s).data
  let signed : ℚ × List Char :=
    match t with
    | '-' :: rest => (-1, rest)
    | '+' :: rest => (1, rest)
    | _ => (1, t)
  let intPart := signed.2.takeWhile Char.isDigit
  let rest := signed.2.dropWhile Char.isDigit
  match rest with
  | [] =>
    if intPart.isEmpty then none
    else some (signed.1 * (digitsVal intPart : ℚ))
  | '.' :: frac =>
    if frac.all Char.isDigit && !(intPart.isEmpty && frac.isEmpty) then
      some (signed.1 * ((digitsVal intPart : ℚ) + (digitsVal frac : ℚ) / (10 : ℚ) ^ frac.length))
    else none
  | _ => none

/-- Python `float(v)`. -/
def pyFloat : JVal → Py ℚ
  | .num q => .ok q
  | .bool b => .ok (if b then 1 else 0)
  | .str s =>
    match parseDecimal? s with
    | some q => .ok q
    | none => .error "ValueError: float"
  | _ => .error "TypeError: float"

/-- Truncation toward zero, as Python `int()` applies to a float. -/
def pyTrunc (q : ℚ) : ℤ := if q < 0 then -(⌊-q⌋) else ⌊q⌋

/-- An integer literal as Python `int()` parses it from a string: optional
sign, digits, surrounding whitespace stripped. -/
def parseInt? (s : String) : Option ℤ :=
  let t := (strTrim s).data
  let signed : ℤ × List Char :=
    match t with
    | '-' :: rest => (-1, rest)
    | '+' :: rest => (1, rest)
    | _ => (1, t)
  if !signed.2.isEmpty && signed.2.all Char.isDigit then
    some (signed.1 * (digitsVal signed.2 : ℤ))
  else none

/-- Python `int(v)`. -/
def pyInt : JVal → Py ℤ
  | .num q => .ok (pyTrunc q)
  | .bool b => .ok (if b then 1 else 0)
  | .str s =>
    match parseInt? s with
    | some n => .ok n
    | none => .error "ValueError: int"
  | _ => .error "TypeError: int"

/-- Whether `needle` occurs contiguously in the character list. -/
def listContains (needle : List Char) : List Char → Bool
  | [] => needle.isEmpty
  | c :: rest => needle.isPrefixOf (c :: rest) || listContains needle rest

/-- Substring test, Python `needle in hay` on strings. -/
def strContains (hay needle : String) : Bool :=
  listContains needle.data hay.data

/-- Python `v.startswith(p)`: raises on a non-string receiver. -/
def pyStartswith : JVal → String → Py Bool
  | .str s, p => .ok (p.data.isPrefixOf s.data)
  | _, _ => .error "AttributeError: startswith"

/-- Rendering of a rational in text (stand-in for Python's numeric repr; no
proved property depends on the exact digits). -/
def qRepr (q : ℚ) : String :=
  if q.den = 1 then toString q.num else toString q.num ++ "/" ++ toString q.den

/-- Python `str(v)` as used inside f-strings. Container repr is abbreviated;
no proved property depends on it. -/
def pyStr : JVal → String
  | .null => "None"
  | .bool true => "True"
  | .bool false => "False"
  | .num q => qRepr q
  | .str s => s
  | .arr _ => "[...]"
  | .obj _ => "\x7b...\x7d"

/-- Two-decimal rendering of a rational (the shape of `f"{x:.2f}"`; half-up
rounding stands in for float formatting). -/
def format2f (q : ℚ) : String :=
  let neg := q < 0
  let n := (⌊(if neg then -q else q) * 100 + 1 / 2⌋).toNat
  let ip := n / 100
  let fp := n % 100
  (if neg then "-" else "") ++ toString ip ++ "." ++ (if fp < 10 then "0" else "") ++ toString fp

/-- Python `f"{v:.2f}"`: raises on a value that has no float format. -/
def pyFormat2f : JVal → Py String
  | .num q => .ok (format2f q)
  | .bool b => .ok (format2f (if b then 1 else 0))
  | _ => .error "ValueError: format"

/-- Python `v >= c` against a numeric constant: raises `TypeError` on
non-numeric `v` (bools compare as 0/1). -/
def pyGe : JVal → ℚ → Py Bool
  | .num q, c => .ok (decide (q ≥ c))
  | .bool b, c => .ok (decide ((if b then (1 : ℚ) else 0) ≥ c))
  | _, _ => .error "TypeError: comparison"

/-! ## guidance.py — the `_guidance` block builders -/

/-- A next-step entry: `{"tool", "params", "note"}` (braces as in the source
dicts). -/
def mkStep (tool : String) (params : JDict) (note : String) : JVal :=
  .obj [("tool", .str tool), ("params", .obj params), ("note", .str note)]

/-- A guidance result: `{"summary", "next_steps"}`. -/
def mkG (summary : String) (next_steps : List JVal) : JVal :=
  .obj [("summary", .str summary), ("next_steps", .arr next_steps)]

/-- guidance.py `_guidance_upload_file`. -/
def _guidance_upload_file (data : JDict) : Py JVal := do
  let session_id := pyGetD data "session_id" (.str "")
  let s3_key := pyGetD data "s3_key" (.str "")
  let filename := pyGetD data "filename" (.str "")
  pure (mkG "File uploaded to S3. Call confirm_upload to register it with the session."
    [mkStep "confirm_upload"
       [("session_id", session_id), ("s3_key", s3_key), ("filename", filename)]
       "Confirm the upload so the backend indexes the file and detects prior configs."])

/-- guidance.py `_guidance_confirm_upload`. -/
def _guidance_confirm_upload (data : JDict) : Py JVal := do
  let session_id := pyGetD data "session_id" (.str "")
  let conv_id := pyGetD data "conversation_id" (.str "")
  -- External API returns "matches" (not "config_matches")
  let matches' := pyOr (pyGet data "matches") (pyOr (pyGet data "config_matches") (.arr []))
  let best_score ←
    if truthy matches' then do
      let m0 ← pyFirstItem matches'
      pyDotGetD m0 "match_score" (.num 0)
    else pure (.num 0)
  -- Server auto-started an upload interview (API session, no strong match).
  if truthy conv_id && truthy (pyGet data "interview_auto_started") then
    pure (mkG
      ("Upload confirmed. No strong config match found — an AI interview has been automatically started to build a validation config. conversation_id: " ++ pyStr conv_id)
      [mkStep "wait_for_conversation"
         [("conversation_id", conv_id), ("session_id", session_id), ("expected_seconds", .num 120)]
         "Preferred: blocks with synthetic progress until the AI asks a question. Answer questions via send_conversation_reply. When the interview finishes (status=approved, trigger_config_generation=true), call create_job(session_id) to start the preview — the preview is NOT auto-queued for upload-interview sessions.",
       mkStep "get_conversation"
         [("conversation_id", conv_id), ("session_id", session_id)]
         "Fallback: one-shot poll — re-call every 15s manually."])
  else do
    let ge ← pyGe best_score (85 / 100)
    if ge then do
      let m0 ← pyFirstItem matches'
      let config_id ← pyDotGetD m0 "config_id" (.str "")
      let scoreText ← pyFormat2f best_score
      pure (mkG
        ("Upload confirmed. A prior config matches with score " ++ scoreText ++ ". You can reuse it directly.")
        [mkStep "create_job" [("session_id", session_id), ("config_id", config_id)]
           "Creates a preview job using the matched config. Fastest path."])
    else
      pure (mkG
        "Upload confirmed. No strong prior config match. Use create_job with a known config_id, or supply a config directly."
        [mkStep "create_job"
           [("session_id", session_id), ("config", .str "<paste config JSON here>")]
           "Supply your own config JSON directly."])

/-- guidance.py `_guidance_create_job`. -/
def _guidance_create_job (data : JDict) : Py JVal := do
  let job_id := pyGetD data "job_id" (.str "")
  let status := pyGetD data "status" (.str "")
  let run_type := pyGetD data "run_type" (.str "")
  -- Issue 3: table maker session IDs can report stale status; drive from messages.
  let sw ← pyStartswith job_id "session_"
  if sw && pyEqStr run_type "preview" then
    pure (mkG
      ("Preview job created (status=" ++ pyStr status ++ "). IMPORTANT: get_job_status may return stale table maker data (status=completed, current_step='Config Generation') — this reflects the table maker run, not the preview. The messages endpoint is authoritative for real-time progress. Use wait_for_job to wait for preview_complete with live progress notifications; it drives from messages and retries status confirmation automatically. Save config_id from the result for future reruns, then call approve_validation.")
      [mkStep "wait_for_job" [("job_id", job_id)]
         "Preferred: blocks until preview_complete, emitting live progress from messages. Returns the same payload as get_job_status.",
       mkStep "get_job_messages" [("job_id", job_id)]
         "Fallback: manually poll messages (card_id='preview') for real-time progress, then call get_job_status once messages show 100%."])
  else
    pure (mkG
      ("Job created (status=" ++ pyStr status ++ "). Use wait_for_job to track completion.")
      [mkStep "wait_for_job" [("job_id", job_id)]
         "Preferred: blocks until preview_complete with live progress notifications. Returns the full status payload including cost_estimate and config_id."])

/-- The intermediate-stage markers checked by the status guidance (a 4-entry
tuple in the source — `guidance.py` lines 276-279 omit "claim extraction"). -/
def _guidance_completed_steps : List String :=
  ["config generation", "configuration generation", "table making", "table maker"]

/-- guidance.py `_guidance_get_job_status` (also reused for wait_for_job). -/
def _guidance_get_job_status (data : JDict) : Py JVal := do
  let job_id := pyGetD data "job_id" (.str "")
  let status := pyGetD data "status" (.str "")
  if pyEqStr status "queued" || pyEqStr status "processing" then
    pure (.obj
      [("summary", .str ("Job is " ++ pyStr status ++ ". Use wait_for_job to block until a terminal state — it drives from the messages endpoint (more reliable than status polling) and emits live MCP progress notifications.")),
       ("next_steps", .arr
         [mkStep "wait_for_job" [("job_id", job_id)]
            "Preferred: blocks until terminal state with live progress. Returns the same payload as get_job_status.",
          mkStep "get_job_status" [("job_id", job_id)]
            "Fallback: one-shot poll — re-call every ~20 seconds manually."]),
       ("notes", .arr
         [.str "session_id and job_id are the same value — this is by design. The status endpoint always reflects the most recent run for this session (config-gen → preview → validation as the pipeline advances)."])])
  else if pyEqStr status "preview_complete" then do
    -- External API: cost lives in cost_estimate.estimated_total_cost_usd
    let cost_est := pyOr (pyGet data "cost_estimate") (.obj [])
    let c0 ← pyDotGet cost_est "estimated_total_cost_usd"
    let cost := pyOr c0 (pyOr (pyGet data "estimated_cost_usd") (pyOr (pyGet data "cost_usd") (.num 0)))
    let config_id := pyGetD data "config_id" (.str "")
    let refine_session := pyOr (pyGet data "refine_session_id") (pyGetD data "conversation_id" (.str ""))
    let session_id := pyGetD data "session_id" (.str "")
    -- Fix #5: surface preview Excel download URL if present.
    let pr := pyOr (pyGet data "preview_results") (.obj [])
    let prev_url ← pyDotGetD pr "download_url" (.str "")
    let next_steps :=
      [mkStep "approve_validation" [("job_id", job_id), ("approved_cost_usd", cost)]
         ("Review preview_results.download_url first, then approve. Estimated cost: $" ++ pyStr cost ++ ".")]
    let next_steps :=
      if truthy refine_session then
        next_steps ++
          [mkStep "refine_config"
             [("conversation_id", refine_session), ("session_id", session_id),
              ("instructions", .str "<describe the changes you want>")]
             "Optional: refine column mappings before approving."]
      else next_steps
    let summary :=
      "Preview complete. Estimated cost: $" ++ pyStr cost ++ ". " ++
        (if truthy config_id then "config_id for future reruns: " ++ pyStr config_id ++ ". " else "") ++
        "Approve to start full processing."
    let summary :=
      if truthy prev_url then summary ++ " Preview Excel download: " ++ pyStr prev_url else summary
    pure (mkG summary next_steps)
  else if pyEqStr status "completed" then do
    -- Table maker / config-gen jobs complete with an intermediate current_step.
    let current_step := pyGetD data "current_step" (.str "")
    let stepLower ← pyLower current_step
    if _guidance_completed_steps.any (fun s => strContains stepLower s) then
      pure (mkG
        "Table maker complete (intermediate phase). A preview validation job has been automatically queued. Do NOT call create_job() — the preview is already running. Use wait_for_job to track the preview phase with live progress; it detects this phase boundary automatically and keeps polling until preview_complete."
        [mkStep "wait_for_job" [("job_id", job_id)]
           "Preferred: detects the phase transition and blocks until preview_complete, emitting live progress. Returns the full status payload with cost_estimate.",
         mkStep "get_job_status" [("job_id", job_id)]
           "Fallback: poll every 20s until status == 'preview_complete', then call approve_validation."])
    else
      pure (mkG "Job completed successfully. Fetch your results."
        [mkStep "get_results" [("job_id", job_id)]
           "Download the enriched/validated output.",
         mkStep "get_reference_results" [("job_id", job_id)]
           "Optional: fetch reference-check sub-results if applicable."])
  else if pyEqStr status "failed" then do
    let error := pyOr (pyGet data "error") (pyOr (pyGet data "message") (.str "Unknown error"))
    pure (mkG ("Job failed: " ++ pyStr error ++ ". No further actions available.") [])
  else
    -- Unknown / other status
    pure (mkG ("Job status is '" ++ pyStr status ++ "'. Poll again or check messages.")
      [mkStep "get_job_status" [("job_id", job_id)] "Poll again in a few seconds."])

/-- The URL keys scanned out of message payloads (Fix #3). -/
def _URL_KEYS : List String := ["download_url", "viewer_url", "interactive_viewer_url"]

/-- guidance.py `_guidance_get_job_messages`. -/
def _guidance_get_job_messages (data : JDict) : Py JVal := do
  let job_id := pyGetD data "job_id" (.str "")
  let messages := pyOr (pyGet data "messages") (.arr [])
  -- External API returns last_seq at the top level; individual messages use "_seq".
  let ls0 := pyGet data "last_seq"
  let last_seq ←
    if isNull ls0 && truthy messages then do
      let last ← pyLastItem messages
      let a ← pyDotGet last "_seq"
      if truthy a then pure a else pyDotGet last "seq"
    else pure ls0
  let params : JDict :=
    if !(isNull last_seq) then [("job_id", job_id), ("since_seq", last_seq)]
    else [("job_id", job_id)]
  -- Fix #3: scan message payloads for viewer/download URLs buried in message_data.
  let msgList ← pyIter messages
  let found_urls ← msgList.foldlM (fun fnd msg => do
      let a ← pyDotGet msg "message_data"
      let msg_data ←
        if truthy a then pure a
        else do
          let b ← pyDotGet msg "data"
          pure (pyOr b (.obj []))
      match msg_data with
      | .obj fs =>
        pure (_URL_KEYS.foldl (fun fnd2 key =>
          let val := pyGet fs key
          if truthy val && !(fnd2.any (fun p => p.1 == key)) then fnd2 ++ [(key, val)]
          else fnd2) fnd)
      | _ => pure fnd)
    ([] : JDict)
  -- Issue #6: collect distinct card_ids present in this batch.
  let card_ids ← msgList.foldlM (fun cards msg => do
      let a ← pyDotGet msg "card_id"
      let cid ← if truthy a then pure a else pyDotGetD msg "cardId" (.str "")
      if truthy cid && !(cards.contains cid) then pure (cards ++ [cid]) else pure cards)
    ([] : List JVal)
  let n ← pyLen messages
  let summary := "Fetched " ++ toString n ++ " message(s). Continue polling job status."
  let summary :=
    if !found_urls.isEmpty then
      summary ++ " URLs found in messages — " ++
        String.intercalate "; " (found_urls.map (fun p => p.1 ++ ": " ++ pyStr p.2))
    else summary
  let result : JDict :=
    [("summary", .str summary),
     ("next_steps", .arr
       [mkStep "get_job_messages" params "Pass since_seq to get only new messages.",
        mkStep "get_job_status" [("job_id", job_id)] "Check overall job status."]),
     ("notes", .arr
       [.str "MULTI-CARD INTERLEAVING: card_ids_present[] in this response lists every pipeline stage (e.g. 'preview', 'config-gen', 'table-maker-\x7bconv_id\x7d') that emitted messages in this batch. Each card has its own independent _seq counter — apparent gaps in sequence numbers are normal and expected.",
        .str "CONFIDENCE INDICATOR: confidence_score in progress messages is an aggregate quality signal used internally to color the UI progress bar. It is NOT the per-cell HIGH / MEDIUM / LOW confidence rating in the final results — do not interpret it as a per-row confidence score."])]
  let result := if !found_urls.isEmpty then result ++ [("found_urls", .obj found_urls)] else result
  let result := if !card_ids.isEmpty then result ++ [("card_ids_present", .arr card_ids)] else result
  pure (.obj result)

/-- guidance.py `_guidance_approve_validation`. -/
def _guidance_approve_validation (data : JDict) : Py JVal := do
  let job_id := pyGetD data "job_id" (.str "")
  let status := pyGetD data "status" (.str "")
  pure (mkG
    ("Validation approved. Job is now " ++ pyStr status ++ ". Use wait_for_job to track completion.")
    [mkStep "wait_for_job" [("job_id", job_id)]
       "Preferred: blocks until completed with live progress notifications. Returns the final status payload; then call get_results."])

/-- guidance.py `_guidance_get_results`. -/
def _guidance_get_results (data : JDict) : Py JVal := do
  let result_info := pyOr (pyGet data "results") (.obj [])
  let job_info := pyOr (pyGet data "job_info") (.obj [])
  let summary_info := pyOr (pyGet data "summary") (.obj [])
  let viewer_url ← pyDotGetD result_info "interactive_viewer_url" (.str "")
  let download_url ← pyDotGetD result_info "download_url" (.str "")
  let metadata_url ← pyDotGetD result_info "metadata_url" (.str "")
  let rows ← pyDotGetD summary_info "rows_processed" (.str "?")
  let cols ← pyDotGetD summary_info "columns_validated" (.str "?")
  let cost ← pyDotGetD summary_info "cost_usd" (.str "?")
  let table_name ← pyDotGetD job_info "input_table_name" (.str "")
  let summary_parts :=
    ["Validation complete: " ++ pyStr rows ++ " rows, " ++ pyStr cols ++ " columns validated" ++
       (if truthy table_name then " — " ++ pyStr table_name else "") ++
       (if !(pyEqStr cost "?") then " (cost: $" ++ pyStr cost ++ ")" else "") ++ "."]
  let summary_parts :=
    if truthy viewer_url then
      summary_parts ++
        ["Share the interactive viewer with humans — it is the best way to communicate this research: " ++ pyStr viewer_url]
    else summary_parts
  let md ← pyDotGet result_info "metadata"
  let has_metadata := truthy md
  let notes : List String :=
    ["HOW TO READ THE RESULTS:",
     (if has_metadata then
        "1. results.metadata is the full table_metadata.json — already embedded inline in this response. It is your primary machine-readable source of truth for every validated cell."
      else
        "1. results.metadata_url (presigned S3 URL) points to table_metadata.json — the structured JSON file containing every validated cell's full detail. Download it to access per-cell validation details."),
     "2. results.metadata structure:",
     "   • table_name  — display name of the validated table",
     "   • columns[]   — list of validated columns with importance, description, notes",
     "   • rows[]      — one entry per row. Each row has cells[] array (positional, aligned to columns[]):",
     "       cells[i].display_value      — formatted value with confidence emoji prefix",
     "       cells[i].full_value         — raw validated/corrected value",
     "       cells[i].confidence         — HIGH / MEDIUM / LOW / ID",
     "       cells[i].comment.validator_explanation — why the value was accepted/changed",
     "       cells[i].comment.qc_reasoning          — QC layer reasoning",
     "       cells[i].comment.key_citation          — the single most important citation",
     "       cells[i].comment.sources[]             — [\x7btitle, url, snippet\x7d] supporting sources",
     "   jq extraction: .results.metadata | \x7bcols: (.columns | map(.name)), rows: (.rows | map(.cells | map(.display_value)))\x7d",
     "3. results.download_url is the enriched Excel file — every cell has the same validation detail embedded as hyperlinks and comments. Use it when you need a self-contained file to share or analyse offline.",
     "4. Always share results.interactive_viewer_url with human stakeholders — it renders sources, citations, and confidence scores in a clean UI that is far easier to navigate than raw JSON or spreadsheet formulas.",
     "5. If the response was too large and saved to a file, use jq to extract key fields: jq '.result[0].text | fromjson | .results.metadata | \x7bcols: (.columns | map(.name)), rows: (.rows | map(.cells | map(.display_value)))\x7d' <file>"]
  let hasRef ← pyDotGet job_info "has_reference_results"
  let next_steps ←
    if truthy hasRef then do
      let jid ← pyDotGetD job_info "job_id" (pyGetD data "job_id" (.str ""))
      pure [mkStep "get_reference_results" [("job_id", jid)]
        "Optional: fetch reference-check sub-results if a reference document was provided."]
    else pure ([] : List JVal)
  let key_urls :=
    ([("interactive_viewer", viewer_url), ("download_excel", download_url),
      ("metadata", metadata_url)] : JDict).filter (fun p => truthy p.2)
  pure (.obj
    [("summary", .str (String.intercalate " " summary_parts)),
     ("next_steps", .arr next_steps),
     ("notes", .arr (notes.map (fun s => .str s))),
     ("key_urls", .obj key_urls)])

/-- guidance.py `_guidance_get_reference_results`. -/
def _guidance_get_reference_results (_data : JDict) : Py JVal :=
  pure (mkG "Reference results fetched. Workflow complete." [])

/-- guidance.py `_guidance_update_table`. -/
def _guidance_update_table (data : JDict) : Py JVal := do
  let job_id := pyGetD data "job_id" (.str "")
  pure (mkG "Update-table job started. Use wait_for_job to track completion."
    [mkStep "wait_for_job" [("job_id", job_id)]
       "Blocks until completed with live progress. Then call get_results."])

/-- guidance.py `_guidance_reference_check`. -/
def _guidance_reference_check (data : JDict) : Py JVal := do
  let job_id := pyGetD data "job_id" (.str "")
  pure (mkG "Reference-check job started. Use wait_for_job to track completion."
    [mkStep "wait_for_job" [("job_id", job_id)]
       "Blocks until completed with live progress. Then call get_reference_results."])

/-- guidance.py `_guidance_start_table_maker`. -/
def _guidance_start_table_maker (data : JDict) : Py JVal := do
  let conv_id := pyGetD data "conversation_id" (.str "")
  let session_id := pyGetD data "session_id" (.str "")
  let status := pyGetD data "status" (.str "")
  if pyEqStr status "completed" then
    pure (mkG "Table-maker conversation started (completed immediately). Fetch the conversation for results."
      [mkStep "get_conversation" [("conversation_id", conv_id), ("session_id", session_id)]
         "Retrieve the completed conversation and any next-step instructions."])
  else
    -- Default: still processing (status == "processing" or unknown)
    pure (mkG "Table-maker conversation started. Wait for the AI's response."
      [mkStep "wait_for_conversation"
         [("conversation_id", conv_id), ("session_id", session_id), ("expected_seconds", .num 150)]
         "Preferred: blocks with synthetic progress until the AI presents a table structure or asks a clarifying question. First turn typically takes 2–3 min.",
       mkStep "get_conversation" [("conversation_id", conv_id), ("session_id", session_id)]
         "Fallback: one-shot poll — re-call every 15s manually."])

/-- The question text shown in the reply branch of the conversation guidance
(source lines 611-614: `last_message`, the content of the final message). -/
def lastMessageOf (data : JDict) : Py JVal := do
  let messages := pyOr (pyGet data "messages") (.arr [])
  if truthy messages then do
    let last ← pyLastItem messages
    pyDotGetD last "content" (.str "")
  else pure (.str "")

/-- guidance.py `_guidance_get_conversation`. The reply-needed check comes
before the generic `status == "processing"` check, by design. -/
def _guidance_get_conversation (data : JDict) : Py JVal := do
  let conv_id := pyGetD data "conversation_id" (.str "")
  let session_id := pyGetD data "session_id" (.str "")
  let status := pyGetD data "status" (.str "")
  let user_reply_needed := pyGetD data "user_reply_needed" (.bool false)
  let next_step := pyOr (pyGet data "next_step") (.obj [])
  -- user_reply_needed takes priority: the AI has finished its turn and is
  -- explicitly waiting for the user. Check this before status=="processing".
  if truthy user_reply_needed then do
    let last_message ← lastMessageOf data
    pure (mkG ("AI is waiting for your reply. Question: " ++ pyStr last_message)
      [mkStep "send_conversation_reply"
         [("conversation_id", conv_id), ("session_id", session_id),
          ("message", .str "<your answer here>")]
         "Answer the AI's question to continue the interview."])
  else if pyEqStr status "processing" then
    pure (mkG "Conversation is still processing. Use wait_for_conversation for a live progress indicator."
      [mkStep "wait_for_conversation" [("conversation_id", conv_id), ("session_id", session_id)]
         "Preferred: blocks with synthetic time-based progress until the AI responds. No token cost while waiting.",
       mkStep "get_conversation" [("conversation_id", conv_id), ("session_id", session_id)]
         "Fallback: one-shot poll — re-call every 15s manually."])
  else do
    let action ← pyDotGetD next_step "action" (.str "")
    if pyEqStr action "submit_preview" then do
      let t0 := pyGet data "trigger_execution"
      let trigger_execution ←
        if truthy t0 then pure t0 else pyDotGet next_step "trigger_execution"
      if truthy trigger_execution then do
        let sw ← pyStartswith conv_id "refine_"
        if sw then
          -- Config refinement complete — the table was already built.
          pure (mkG "Config refinement complete. A new preview validation job has been automatically queued with the updated config. Do NOT call create_job(). Use wait_for_job(session_id) to track the preview with live progress."
            [mkStep "wait_for_job" [("job_id", session_id)]
               "Preferred: blocks until preview_complete with live progress. Then review cost_estimate and call approve_validation."])
        else do
          -- The table maker is NOW RUNNING; the preview is auto-queued after it.
          let target_rows := pyGet data "target_row_count"
          let row_count_warning ←
            if truthy target_rows then do
              let n ← pyInt target_rows
              if n > 0 then
                pure (" WARNING: You requested " ++ pyStr target_rows ++ " rows, but the table builder may produce significantly more if it finds additional candidates — row count is not strictly enforced by the backend. Cost is proportional to actual rows built and is only visible at preview_complete. If this is a concern, reconsider the request scope before the table builder finishes.")
              else pure ""
            else pure ""
          pure (mkG
            ("Table is being built. A preview validation job will start automatically once the table maker finishes (typically 3–10 minutes). Do NOT call create_job() — the preview is auto-queued. Use wait_for_job(session_id) — it detects the phase transition and tracks both the table-maker and preview phases with live progress." ++ row_count_warning)
            [mkStep "wait_for_job" [("job_id", session_id)]
               "Preferred: handles the table-maker → preview phase boundary automatically. Blocks until preview_complete, then call approve_validation."])
      else
        -- Upload-interview flow: a preview job is automatically queued.
        pure (mkG "Interview complete. The config has been generated and a preview job has been automatically queued. Do NOT call create_job() — the preview is already running. Use wait_for_job(session_id) to track it with live progress until preview_complete, then call approve_validation."
          [mkStep "wait_for_job" [("job_id", session_id)]
             "Preferred: blocks until preview_complete with live progress. Returns the full status payload; then call approve_validation.",
           mkStep "refine_config"
             [("conversation_id", conv_id), ("session_id", session_id),
              ("instructions", .str "<describe changes>")]
             "Optional: refine the config before the preview completes."])
    else if pyEqStr status "execution_ready" then
      -- Issue 7: execution_ready with an action other than submit_preview.
      pure (mkG
        ("Conversation is execution_ready (next_step.action='" ++ pyStr action ++ "'). Review next_step for the required action and follow its instructions.")
        [mkStep "send_conversation_reply"
           [("conversation_id", conv_id), ("session_id", session_id),
            ("message", .str "<follow next_step.action instructions>")]
           ("next_step.action is '" ++ pyStr action ++ "' — inspect the full next_step object for required params and body before calling.")])
    else if pyEqStr status "approved" && truthy (pyGet data "trigger_config_generation") then
      -- Upload-interview terminal state: the preview is NOT auto-queued.
      pure (mkG "Upload interview complete. The validation config has been generated and approved. Call create_job(session_id) now to start the 3-row preview — the preview is NOT auto-queued for upload-interview sessions."
        [mkStep "create_job" [("session_id", session_id)]
           "Starts a 3-row preview using the generated config. After preview_complete, review the results and call approve_validation.",
         mkStep "refine_config"
           [("conversation_id", conv_id), ("session_id", session_id),
            ("instructions", .str "<describe changes>")]
           "Optional: refine the config before starting the preview."])
    else
      -- Completed / other
      pure (mkG ("Conversation status: " ++ pyStr status ++ ". Check next_step for instructions.")
        [mkStep "get_conversation" [("conversation_id", conv_id), ("session_id", session_id)]
           "Poll again if status is still in progress."])

/-- guidance.py `_guidance_send_conversation_reply`. -/
def _guidance_send_conversation_reply (data : JDict) : Py JVal := do
  let conv_id := pyGetD data "conversation_id" (.str "")
  let session_id := pyGetD data "session_id" (.str "")
  pure (mkG "Reply sent. Wait for the AI's next message."
    [mkStep "wait_for_conversation"
       [("conversation_id", conv_id), ("session_id", session_id), ("expected_seconds", .num 60)]
       "Preferred: blocks with synthetic progress. Simple confirmations ('yes') typically resolve in 30–90s.",
     mkStep "get_conversation" [("conversation_id", conv_id), ("session_id", session_id)]
       "Fallback: one-shot poll — re-call every 15s manually."])

/-- guidance.py `_guidance_refine_config`. -/
def _guidance_refine_config (data : JDict) : Py JVal := do
  let conv_id := pyGetD data "conversation_id" (.str "")
  let session_id := pyGetD data "session_id" (.str "")
  pure (mkG "Config refinement submitted. Wait for the updated config."
    [mkStep "wait_for_conversation"
       [("conversation_id", conv_id), ("session_id", session_id), ("expected_seconds", .num 90)]
       "Preferred: blocks with synthetic progress until the refined config is ready.",
     mkStep "get_conversation" [("conversation_id", conv_id), ("session_id", session_id)]
       "Fallback: one-shot poll — re-call every 15s manually."])

/-- guidance.py `_guidance_get_balance`. -/
def _guidance_get_balance (data : JDict) : Py JVal := do
  let balance := pyOr (pyGet data "balance_usd") (pyGetD data "balance" (.str "unknown"))
  pure (mkG ("Account balance: $" ++ pyStr balance ++ ".") [])

/-- guidance.py `_guidance_get_usage`. -/
def _guidance_get_usage (data : JDict) : Py JVal := do
  let total := pyOr (pyGet data "total_cost_usd") (pyGetD data "total" (.str "unknown"))
  pure (mkG ("Usage data fetched. Total cost in range: $" ++ pyStr total ++ ".") [])

/-- The dispatch table `_BUILDERS`: tool name to builder. -/
def _BUILDERS : List (String × (JDict → Py JVal)) :=
  [("upload_file", _guidance_upload_file),
   ("confirm_upload", _guidance_confirm_upload),
   ("create_job", _guidance_create_job),
   ("get_job_status", _guidance_get_job_status),
   ("wait_for_job", _guidance_get_job_status),  -- same payload shape — reuse builder
   ("get_job_messages", _guidance_get_job_messages),
   ("approve_validation", _guidance_approve_validation),
   ("get_results", _guidance_get_results),
   ("get_reference_results", _guidance_get_reference_results),
   ("update_table", _guidance_update_table),
   ("reference_check", _guidance_reference_check),
   ("start_table_maker", _guidance_start_table_maker),
   ("get_conversation", _guidance_get_conversation),
   ("send_conversation_reply", _guidance_send_conversation_reply),
   ("refine_config", _guidance_refine_config),
   ("get_balance", _guidance_get_balance),
   ("get_usage", _guidance_get_usage)]

/-- guidance.py `build_guidance`: dispatch to the per-tool builder. Unknown
tools get a generic no-guidance result; a raising builder is caught — "never
let guidance crash the tool" — and surfaced as a degraded result. -/
def build_guidance (tool_name : String) (api_data : JDict) : JVal :=
  match _BUILDERS.find? (fun p => p.1 == tool_name) with
  | none =>
    .obj [("summary", .str ("No guidance defined for tool '" ++ tool_name ++ "'.")),
          ("next_steps", .arr [])]
  | some p =>
    match p.2 api_data with
    | .ok g => g
    | .error exc =>
      .obj [("summary", .str ("Guidance error: " ++ exc)), ("next_steps", .arr [])]

/-! ## tools/jobs.py — the `wait_for_job` polling loop

The loop's closure state (`_pf`, `_pc`, `_last_intermediate_step`,
`last_seq`, `_cursor_primed`, `msg_progress`, `last_emitted`, `data`) is the
record `LoopState`; one iteration of the `while True` body is `stepCycle`.
The environment's contribution to one cycle — the two HTTP responses (or
the exception a request raised) and whether the deadline has passed when the
step-4 guard runs — is a `CycleInput`; a whole call processes a list of
them. `ctx.report_progress` is fire-and-forget in the source (faults
swallowed), so an emission is recorded as the rational value passed to it.
Status and message response bodies are JSON objects per the REST API, hence
`JDict` inputs. -/

/-- jobs.py `_INTERMEDIATE_STEPS`: step names (lowercased) marking an
intermediate completed state. -/
def _INTERMEDIATE_STEPS : List String :=
  ["config generation", "configuration generation", "table making", "table maker",
   "claim extraction"]

/-- jobs.py `_is_intermediate_complete`: status is "completed" and the step
text (current_step, falling back to step) contains an intermediate marker.
`.lower()` on a truthy non-string step raises, hence the `Py` result. -/
def _is_intermediate_complete (d : JDict) : Py Bool :=
  if !(pyEqStr (pyGet d "status") "completed") then pure false
  else do
    let step ← pyLower (pyOr (pyGet d "current_step") (pyOr (pyGet d "step") (.str "")))
    pure (_INTERMEDIATE_STEPS.any (fun s => strContains step s))

/-- jobs.py `_is_true_terminal`: preview_complete or failed, or completed
without an intermediate step marker. -/
def _is_true_terminal (d : JDict) : Py Bool :=
  let status := pyGetD d "status" (.str "")
  if pyEqStr status "preview_complete" || pyEqStr status "failed" then pure true
  else if pyEqStr status "completed" then do
    let ic ← _is_intermediate_complete d
    pure (!ic)
  else pure false

/-- The progress-like payload keys of `_extract_progress`, in scan order. -/
def _PROGRESS_KEYS : List String := ["progress", "percent", "progress_percent", "value"]

/-- The first progress-like key present in the payload (explicit `key in
payload` check: a key whose value is 0 — or even `None` — is found). -/
def firstProgressKey (fs : JDict) : Option JVal :=
  _PROGRESS_KEYS.findSome? (fun k => jget? fs k)

/-- The scan of `_extract_progress` over the already-reversed message list:
the first payload exposing a progress-like key wins and is `float()`ed. -/
def extractLoop : List JVal → Py (Option ℚ)
  | [] => pure none
  | m :: rest => do
    let a ← pyDotGet m "message_data"
    let payload ←
      if truthy a then pure a
      else do
        let b ← pyDotGet m "data"
        pure (pyOr b (.obj []))
    match payload with
    | .obj fs =>
      match firstProgressKey fs with
      | some v => do
        let q ← pyFloat v
        pure (some q)
      | none => extractLoop rest
    | _ => extractLoop rest

/-- jobs.py `_extract_progress`: latest progress % from message payloads,
scanning `reversed(messages)`. -/
def _extract_progress (messages : JVal) : Py (Option ℚ) := do
  let rev ← pyReversed messages
  extractLoop rev

/-- The request parameters `_fetch_messages` sends:
`{"since_seq": last_seq} if last_seq is not None else None`. -/
def messageParams (last_seq : JVal) : Option JDict :=
  if !(isNull last_seq) then some [("since_seq", last_seq)] else none

/-- What one `_fetch_messages` call leaves behind: the messages it returns
for progress use, and the new `last_seq` / `_cursor_primed` values. -/
structure FetchOut where
  visible : JVal
  lastSeq : JVal
  primed : Bool

/-- The `new_seq` computation of `_fetch_messages`: the top-level reported
tail, or — when that is `None` and messages are present — the last message's
`_seq` (or, when that is falsy, its `seq`). -/
def fetchNewSeq (resp : JDict) : Py JVal :=
  let messages := pyOr (pyGet resp "messages") (.arr [])
  let ns0 := pyGet resp "last_seq"
  if isNull ns0 && truthy messages then do
    let last ← pyLastItem messages
    let a ← pyDotGet last "_seq"
    if truthy a then pure a
    else pyDotGet last "seq"
  else pure ns0

/-- jobs.py `_fetch_messages`, given the response body `resp`: advance the
cursor to the reported tail (falling back to the last message's `_seq` or
`seq`); the first (unprimed) call discards its batch and returns `[]`. -/
def _fetch_messages (last_seq : JVal) (cursor_primed : Bool) (resp : JDict) :
    Py FetchOut := do
  let messages := pyOr (pyGet resp "messages") (.arr [])
  let new_seq ← fetchNewSeq resp
  let lastSeq' := if !(isNull new_seq) then new_seq else last_seq
  if !cursor_primed then
    -- Cursor is now at the current tail; discard this batch so old phase
    -- messages don't influence last_emitted.
    pure ⟨.arr [], lastSeq', true⟩
  else
    pure ⟨messages, lastSeq', true⟩

/-- jobs.py `_scale_to_range`: map a within-phase 0–100 value into
[phase_floor, phase_ceiling]. -/
def _scale_to_range (pf pc phase_pct : ℚ) : ℚ :=
  let clamped := min (max phase_pct 0) 99
  pf + (clamped / 100) * (pc - pf)

/-- The phase-split reallocation (loop body lines 350-352): spend 80% of the
range, never regress below `last_emitted + 0.5`, always leave room below the
ceiling. -/
def reallocFloor (pf pc last_emitted : ℚ) : ℚ :=
  let spend := pf + (pc - pf) * (8 / 10)
  let new_floor := max spend (last_emitted + 1 / 2)
  min new_floor (pc - 1)

/-- The `_wait_timeout` annotation text. -/
def waitTimeoutMsg (timeout_seconds : ℤ) : String :=
  "wait_for_job timed out after " ++ toString timeout_seconds ++
    "s. Job has not reached a terminal state. Call wait_for_job again or poll get_job_status manually."

/-- The mutable state of one `wait_for_job` invocation. -/
structure LoopState where
  pf : ℚ                                  -- `_pf[0]`, phase_floor
  pc : ℚ                                  -- `_pc[0]`, phase_ceiling
  last_intermediate_step : Option String  -- `_last_intermediate_step[0]`
  last_seq : JVal                         -- `last_seq` (None as `.null`)
  cursor_primed : Bool                    -- `_cursor_primed`
  msg_progress : ℚ                        -- `msg_progress`
  last_emitted : ℚ                        -- `last_emitted`
  data : JDict                            -- `data` (last fetched status body)

/-- The state on entry to the loop: full 0–99 range, unprimed cursor,
`msg_progress = 2.0`, `last_emitted = 0.0`, empty `data`. -/
def initState : LoopState :=
  { pf := 0, pc := 99, last_intermediate_step := none, last_seq := .null,
    cursor_primed := false, msg_progress := 2, last_emitted := 0, data := [] }

/-- The environment's contribution to one poll cycle: each fetch either
returned a JSON object or raised (`none`), and `timedOut` is whether the
deadline had passed when the step-4 guard ran. -/
structure CycleInput where
  msgResp : Option JDict
  statusResp : Option JDict
  timedOut : Bool

/-- What `wait_for_job` returns: the payload dict (with `_guidance`, and
`_wait_timeout` on the timeout path) and which path returned it. -/
structure WaitReturn where
  data : JDict
  timedOut : Bool

/-- Step 1 of the loop body: poll messages, update the cursor and
`msg_progress`; any exception is swallowed, keeping the mutations already
performed (`_fetch_messages` updates the cursor before extraction runs). -/
def pollMessages (s : LoopState) (msgResp : Option JDict) : LoopState :=
  match msgResp with
  | none => s
  | some resp =>
    match _fetch_messages s.last_seq s.cursor_primed resp with
    | .error _ => s
    | .ok out =>
      let s := { s with last_seq := out.lastSeq, cursor_primed := out.primed }
      if truthy out.visible then
        match _extract_progress out.visible with
        | .error _ => s
        | .ok none => s
        | .ok (some q) => { s with msg_progress := q }
      else s

/-- Step 2's `candidate = _scale_to_range(max(msg_progress, 2.0))`. -/
def candidate (s : LoopState) : ℚ :=
  _scale_to_range s.pf s.pc (max s.msg_progress 2)

/-- Step 3's outcome: the state after the status poll, whether a range
reallocation happened, and the terminal return if one fired. -/
structure StatusOut where
  state : LoopState
  reallocs : ℕ
  ret : Option WaitReturn

/-- Step 3 of the loop body: fetch status (already-`data` is updated even if
classification later raises), apply the lazy phase split on a NEW
intermediate step, or return on a true terminal state; exceptions are
swallowed. -/
def pollStatus (s : LoopState) (statusResp : Option JDict) : StatusOut :=
  match statusResp with
  | none => ⟨s, 0, none⟩
  | some d =>
    let s := { s with data := d }
    match _is_intermediate_complete d with
    | .error _ => ⟨s, 0, none⟩
    | .ok true =>
      match pyLower (pyOr (pyGet d "current_step") (.str "")) with
      | .error _ => ⟨s, 0, none⟩
      | .ok current_step_key =>
        -- Only apply the phase split if this is a NEW intermediate step.
        if some current_step_key ≠ s.last_intermediate_step then
          ⟨{ s with last_intermediate_step := some current_step_key,
                    pf := reallocFloor s.pf s.pc s.last_emitted,
                    -- `_pc[0]` stays — the next phase inherits the rest
                    msg_progress := 2 }, 1, none⟩
        else ⟨s, 0, none⟩
    | .ok false =>
      match _is_true_terminal d with
      | .error _ => ⟨s, 0, none⟩   -- unreachable after an ok classification
      | .ok true =>
        let d' := jset d "_guidance" (build_guidance "get_job_status" d)
        ⟨{ s with data := d' }, 0, some ⟨d', false⟩⟩
      | .ok false => ⟨s, 0, none⟩

/-- The dict the timeout path annotates: the last fetched status body, or
the `{"job_id": ..., "status": "unknown"}` placeholder when no status fetch
ever succeeded (`if not data`). -/
def timeoutBase (job_id : String) (d : JDict) : JDict :=
  if d.isEmpty then [("job_id", JVal.str job_id), ("status", JVal.str "unknown")] else d

/-- Step 4's timeout return: fall back to a placeholder when no status fetch
ever succeeded, attach guidance and the `_wait_timeout` marker. -/
def timeoutReturn (job_id : String) (timeout_seconds : ℤ) (s : LoopState) : WaitReturn :=
  let data0 := timeoutBase job_id s.data
  let d1 := jset data0 "_guidance" (build_guidance "get_job_status" data0)
  let d2 := jset d1 "_wait_timeout" (.str (waitTimeoutMsg timeout_seconds))
  ⟨d2, true⟩

/-- One cycle's full outcome: next state, the progress values reported (in
order), the number of reallocations (0 or 1), and the return if the call
ended this cycle. -/
structure CycleOut where
  state : LoopState
  emits : List ℚ
  reallocs : ℕ
  ret : Option WaitReturn

/-- Step 2's `emit_pct = max(candidate, last_emitted)`, computed on the state
left by the message poll. -/
def emit_pct (s : LoopState) (c : CycleInput) : ℚ :=
  max (candidate (pollMessages s c.msgResp)) (pollMessages s c.msgResp).last_emitted

/-- The state after steps 1 and 2 of a cycle: message poll applied and
`last_emitted` raised to the emitted value. -/
def midState (s : LoopState) (c : CycleInput) : LoopState :=
  { pollMessages s c.msgResp with last_emitted := emit_pct s c }

/-- The status-poll outcome of a cycle (step 3), from the mid-cycle state. -/
def statusOut (s : LoopState) (c : CycleInput) : StatusOut :=
  pollStatus (midState s c) c.statusResp

/-- One iteration of the `while True` body: poll messages, emit the
monotonically clamped progress value, poll status (phase split / terminal
return), then the timeout guard. -/
def stepCycle (job_id : String) (timeout_seconds : ℤ) (s : LoopState)
    (c : CycleInput) : CycleOut :=
  match (statusOut s c).ret with
  | some r => ⟨(statusOut s c).state, [emit_pct s c, 100], (statusOut s c).reallocs, some r⟩
  | none =>
    if c.timedOut then
      ⟨(statusOut s c).state, [emit_pct s c], (statusOut s c).reallocs,
        some (timeoutReturn job_id timeout_seconds (statusOut s c).state)⟩
    else ⟨(statusOut s c).state, [emit_pct s c], (statusOut s c).reallocs, none⟩

/-- The observable outcome of a whole call: emitted progress values in
order, total number of reallocations, the return (when the inputs drove the
call to one), and the final loop state. -/
structure RunOut where
  emits : List ℚ
  reallocs : ℕ
  ret : Option WaitReturn
  final : LoopState

/-- A whole `wait_for_job` call over a list of cycle inputs. -/
def runWait (job_id : String) (timeout_seconds : ℤ) :
    LoopState → List CycleInput → RunOut
  | s, [] => ⟨[], 0, none, s⟩
  | s, c :: cs =>
    match (stepCycle job_id timeout_seconds s c).ret with
    | some r =>
      ⟨(stepCycle job_id timeout_seconds s c).emits,
       (stepCycle job_id timeout_seconds s c).reallocs, some r,
       (stepCycle job_id timeout_seconds s c).state⟩
    | none =>
      ⟨(stepCycle job_id timeout_seconds s c).emits ++
         (runWait job_id timeout_seconds (stepCycle job_id timeout_seconds s c).state cs).emits,
       (stepCycle job_id timeout_seconds s c).reallocs +
         (runWait job_id timeout_seconds (stepCycle job_id timeout_seconds s c).state cs).reallocs,
       (runWait job_id timeout_seconds (stepCycle job_id timeout_seconds s c).state cs).ret,
       (runWait job_id timeout_seconds (stepCycle job_id timeout_seconds s c).state cs).final⟩

/-! ## Helper lemmas -/

theorem find?_map_set_self (d : JDict) (k : String) (v : JVal)
    (h : d.any (fun p => p.1 == k) = true) :
    (d.map (fun p => if p.1 == k then (k, v) else p)).find? (fun p => p.1 == k)
      = some (k, v) := by
  induction d with
  | nil => simp at h
  | cons p d ih =>
    simp only [List.any_cons, Bool.or_eq_true] at h
    by_cases hp : (p.1 == k) = true
    · rw [List.map_cons, if_pos hp,
        List.find?_cons_of_pos (p := fun q : String × JVal => q.1 == k) _ (by simp)]
    · rw [List.map_cons, if_neg hp,
        List.find?_cons_of_neg (p := fun q : String × JVal => q.1 == k) _ hp]
      exact ih (h.resolve_left hp)

theorem jget?_jset_self (d : JDict) (k : String) (v : JVal) :
    jget? (jset d k v) k = some v := by
  unfold jset jget?
  split
  · rename_i h
    rw [find?_map_set_self d k v h]
    rfl
  · rename_i h
    rw [List.find?_append, List.find?_eq_none.mpr, Option.none_or,
      List.find?_cons_of_pos _ (by simp)]
    · rfl
    · intro x hx hpx
      exact h (List.any_eq_true.mpr ⟨x, hx, hpx⟩)

theorem find?_map_set_other (d : JDict) (k k' : String) (v : JVal) (hk : k' ≠ k) :
    (d.map (fun p => if p.1 == k then (k, v) else p)).find? (fun p => p.1 == k')
      = d.find? (fun p => p.1 == k') := by
  induction d with
  | nil => rfl
  | cons p d ih =>
    by_cases hp : (p.1 == k) = true
    · have hpk : p.1 = k := by simpa using hp
      rw [List.map_cons, if_pos hp,
        List.find?_cons_of_neg (p := fun q : String × JVal => q.1 == k') _
          (by simp only [beq_iff_eq]; exact fun h => hk h.symm),
        List.find?_cons_of_neg (p := fun q : String × JVal => q.1 == k') _
          (by simp only [hpk, beq_iff_eq]; exact fun h => hk h.symm), ih]
    · rw [List.map_cons, if_neg hp]
      by_cases hq : (p.1 == k') = true
      · rw [List.find?_cons_of_pos (p := fun q : String × JVal => q.1 == k') _ hq,
          List.find?_cons_of_pos (p := fun q : String × JVal => q.1 == k') _ hq]
      · rw [List.find?_cons_of_neg (p := fun q : String × JVal => q.1 == k') _ hq,
          List.find?_cons_of_neg (p := fun q : String × JVal => q.1 == k') _ hq, ih]

theorem jget?_jset_other (d : JDict) (k k' : String) (v : JVal) (hk : k' ≠ k) :
    jget? (jset d k v) k' = jget? d k' := by
  unfold jset jget?
  split
  · rw [find?_map_set_other d k k' v hk]
  · rw [List.find?_append]
    have : List.find? (fun p : String × JVal => p.1 == k') [(k, v)] = none := by
      refine List.find?_eq_none.mpr ?_
      intro x hx
      rw [List.mem_singleton] at hx
      subst hx
      simp only [beq_iff_eq]
      exact fun h => hk h.symm
    rw [this, Option.or_none]

theorem Py_bind_ok {α β : Type} (x : α) (f : α → Py β) :
    ((Except.ok x : Py α) >>= f) = f x := rfl

theorem Py_bind_error {α β : Type} (e : String) (f : α → Py β) :
    ((Except.error e : Py α) >>= f) = .error e := rfl

theorem Py_pure {α : Type} (x : α) : (pure x : Py α) = .ok x := rfl

theorem pollMessages_some (s : LoopState) (resp : JDict) :
    pollMessages s (some resp) =
      match _fetch_messages s.last_seq s.cursor_primed resp with
      | .error _ => s
      | .ok out =>
        let s' := { s with last_seq := out.lastSeq, cursor_primed := out.primed }
        if truthy out.visible then
          match _extract_progress out.visible with
          | .error _ => s'
          | .ok none => s'
          | .ok (some q) => { s' with msg_progress := q }
        else s' := rfl

theorem pollMessages_frame (s : LoopState) (m : Option JDict) :
    (pollMessages s m).pf = s.pf ∧ (pollMessages s m).pc = s.pc ∧
    (pollMessages s m).last_emitted = s.last_emitted ∧
    (pollMessages s m).last_intermediate_step = s.last_intermediate_step ∧
    (pollMessages s m).data = s.data := by
  unfold pollMessages
  repeat' split
  all_goals exact ⟨rfl, rfl, rfl, rfl, rfl⟩

theorem reallocFloor_lt (pf pc le : ℚ) : reallocFloor pf pc le < pc := by
  unfold reallocFloor
  calc min (max (pf + (pc - pf) * (8 / 10)) (le + 1 / 2)) (pc - 1) ≤ pc - 1 :=
        min_le_right _ _
    _ < pc := by linarith

theorem pollStatus_frame (s : LoopState) (o : Option JDict) :
    (pollStatus s o).state.pc = s.pc ∧
    (pollStatus s o).state.last_emitted = s.last_emitted ∧
    ((pollStatus s o).state.pf = s.pf ∨
      (pollStatus s o).state.pf = reallocFloor s.pf s.pc s.last_emitted) := by
  unfold pollStatus
  repeat' (first | split | dsimp only)
  all_goals first
    | exact ⟨rfl, rfl, Or.inl rfl⟩
    | exact ⟨rfl, rfl, Or.inr rfl⟩

theorem candidate_le (s : LoopState) (h1 : s.pf < s.pc) (h2 : s.pc ≤ 99) :
    candidate s ≤ 99 := by
  unfold candidate _scale_to_range
  have hc1 : min (max (max s.msg_progress 2) 0) 99 ≤ 99 := min_le_right _ _
  have hc0 : (0 : ℚ) ≤ min (max (max s.msg_progress 2) 0) 99 := by
    refine le_min (le_max_right _ _) (by norm_num)
  set c := min (max (max s.msg_progress 2) 0) 99 with hc
  have hspan : (0 : ℚ) ≤ s.pc - s.pf := by linarith
  have : (c / 100) * (s.pc - s.pf) ≤ 1 * (s.pc - s.pf) := by
    apply mul_le_mul_of_nonneg_right _ hspan
    linarith
  linarith

theorem candidate_ge_pf (s : LoopState) (h1 : s.pf ≤ s.pc) : s.pf ≤ candidate s := by
  unfold candidate _scale_to_range
  have hc0 : (0 : ℚ) ≤ min (max (max s.msg_progress 2) 0) 99 := by
    refine le_min (le_max_right _ _) (by norm_num)
  have hspan : (0 : ℚ) ≤ s.pc - s.pf := by linarith
  nlinarith

theorem stepCycle_state_eq (jid : String) (t : ℤ) (s : LoopState) (c : CycleInput) :
    (stepCycle jid t s c).state = (statusOut s c).state := by
  unfold stepCycle
  rcases hr : (statusOut s c).ret with _ | r <;> dsimp only
  split <;> rfl

theorem stepCycle_reallocs_eq (jid : String) (t : ℤ) (s : LoopState) (c : CycleInput) :
    (stepCycle jid t s c).reallocs = (statusOut s c).reallocs := by
  unfold stepCycle
  rcases hr : (statusOut s c).ret with _ | r <;> dsimp only
  split <;> rfl

theorem stepCycle_emits_cases (jid : String) (t : ℤ) (s : LoopState) (c : CycleInput) :
    ((stepCycle jid t s c).emits = [emit_pct s c] ∨
      (stepCycle jid t s c).emits = [emit_pct s c, 100]) ∧
    ((stepCycle jid t s c).ret = none → (stepCycle jid t s c).emits = [emit_pct s c]) := by
  unfold stepCycle
  rcases hr : (statusOut s c).ret with _ | r <;> dsimp only
  · constructor
    · split <;> exact Or.inl rfl
    · intro _; split <;> rfl
  · exact ⟨Or.inr rfl, fun h => absurd h (by simp)⟩

/-- One cycle from a state satisfying the range invariant: the emitted value
never drops below the previous `last_emitted`, stays at most 99 (100 is
appended only on the terminal path), and the invariant is preserved. -/
theorem stepCycle_spec (jid : String) (t : ℤ) (s : LoopState) (c : CycleInput)
    (h1 : s.pf < s.pc) (h2 : s.pc ≤ 99) (h3 : s.last_emitted ≤ 99) :
    s.last_emitted ≤ emit_pct s c ∧ emit_pct s c ≤ 99 ∧
    (stepCycle jid t s c).state.last_emitted = emit_pct s c ∧
    (stepCycle jid t s c).state.pf < (stepCycle jid t s c).state.pc ∧
    (stepCycle jid t s c).state.pc ≤ 99 := by
  obtain ⟨hpf, hpc, hle, -, -⟩ := pollMessages_frame s c.msgResp
  have he1 : s.last_emitted ≤ emit_pct s c := by
    unfold emit_pct
    rw [← hle]
    exact le_max_right _ _
  have he99 : emit_pct s c ≤ 99 := by
    unfold emit_pct
    apply max_le
    · exact candidate_le _ (by rw [hpf, hpc]; exact h1) (by rw [hpc]; exact h2)
    · rw [hle]; exact h3
  obtain ⟨hfpc, hfle, hfpf⟩ := pollStatus_frame (midState s c) c.statusResp
  have hmid_pf : (midState s c).pf = s.pf := hpf
  have hmid_pc : (midState s c).pc = s.pc := hpc
  have hmid_le : (midState s c).last_emitted = emit_pct s c := rfl
  refine ⟨he1, he99, ?_, ?_, ?_⟩
  · rw [stepCycle_state_eq]
    show (pollStatus (midState s c) c.statusResp).state.last_emitted = emit_pct s c
    rw [hfle, hmid_le]
  · rw [stepCycle_state_eq]
    show (pollStatus (midState s c) c.statusResp).state.pf
      < (pollStatus (midState s c) c.statusResp).state.pc
    rcases hfpf with h | h
    · rw [h, hfpc, hmid_pf, hmid_pc]; exact h1
    · rw [h, hfpc]
      exact reallocFloor_lt _ _ _
  · rw [stepCycle_state_eq]
    show (pollStatus (midState s c) c.statusResp).state.pc ≤ 99
    rw [hfpc, hmid_pc]; exact h2

/-- The emitted sequence of a whole call, prefixed with the incoming
`last_emitted` floor, is a non-decreasing chain whenever the range invariant
holds on entry. -/
theorem runWait_chain (jid : String) (t : ℤ) (cs : List CycleInput) :
    ∀ s : LoopState, s.pf < s.pc → s.pc ≤ 99 → s.last_emitted ≤ 99 →
      List.Chain' (· ≤ ·) (s.last_emitted :: (runWait jid t s cs).emits) := by
  induction cs with
  | nil => intro s _ _ _; simp [runWait]
  | cons c cs ih =>
    intro s h1 h2 h3
    obtain ⟨he1, he99, hstle, hpf2, hpc2⟩ := stepCycle_spec jid t s c h1 h2 h3
    obtain ⟨hem, hnone⟩ := stepCycle_emits_cases jid t s c
    unfold runWait
    rcases hr : (stepCycle jid t s c).ret with _ | r <;> dsimp only
    · rw [hnone hr, List.singleton_append]
      have hrec := ih (stepCycle jid t s c).state hpf2 hpc2 (by rw [hstle]; exact he99)
      rw [hstle] at hrec
      exact List.chain'_cons.mpr ⟨he1, hrec⟩
    · rcases hem with h | h
      · rw [h]
        exact List.chain'_cons.mpr ⟨he1, List.chain'_singleton _⟩
      · rw [h]
        exact List.chain'_cons.mpr ⟨he1,
          List.chain'_cons.mpr ⟨by linarith, List.chain'_singleton _⟩⟩

/-- C1: for every sequence of poll responses observed by a single
`wait_for_job` invocation — oscillating native progress values and repeated
duplicate intermediate-complete snapshots included — the sequence of progress
values emitted to the progress callback is non-decreasing over the whole
call. -/
theorem wait_for_job_progress_monotone (jid : String) (t : ℤ) (cs : List CycleInput) :
    List.Chain' (· ≤ ·) (runWait jid t initState cs).emits := by
  have h := runWait_chain jid t cs initState (by norm_num [initState])
    (by norm_num [initState]) (by norm_num [initState])
  exact h.tail

theorem pyEqStr_eq_true_iff (v : JVal) (s : String) :
    pyEqStr v s = true ↔ v = .str s := by
  cases v <;> simp [pyEqStr]

theorem pyGet_of_pyGetD_str (d : JDict) (k s : String) (hs : s ≠ "")
    (h : pyEqStr (pyGetD d k (.str "")) s = true) : pyGet d k = .str s := by
  unfold pyGetD at h
  unfold pyGet
  rcases hg : jget? d k with _ | v <;> rw [hg] at h
  · rw [pyEqStr_eq_true_iff] at h
    exact absurd (JVal.str.inj h.symm) fun he => hs he
  · rw [pyEqStr_eq_true_iff] at h
    rw [Option.getD_some] at h ⊢
    exact h

/-- A true-terminal classification implies the intermediate-complete check
returned `ok false` (so in the loop's `if/elif`, the terminal branch runs). -/
theorem terminal_not_intermediate (d : JDict)
    (h : _is_true_terminal d = .ok true) :
    _is_intermediate_complete d = .ok false := by
  unfold _is_true_terminal at h
  dsimp only at h
  by_cases hPF : (pyEqStr (pyGetD d "status" (.str "")) "preview_complete" ||
      pyEqStr (pyGetD d "status" (.str "")) "failed") = true
  · rcases Bool.or_eq_true_iff.mp hPF with hP | hF
    · have hv := pyGet_of_pyGetD_str d "status" "preview_complete" (by decide) hP
      unfold _is_intermediate_complete
      rw [hv]
      rfl
    · have hv := pyGet_of_pyGetD_str d "status" "failed" (by decide) hF
      unfold _is_intermediate_complete
      rw [hv]
      rfl
  · rw [if_neg hPF] at h
    by_cases hC : pyEqStr (pyGetD d "status" (.str "")) "completed" = true
    · rw [if_pos hC] at h
      rcases hic : _is_intermediate_complete d with e | b <;> rw [hic] at h
      · exact Except.noConfusion h
      · have hb : (!b) = true := Except.ok.inj h
        have : b = false := by
          cases b
          · rfl
          · simp at hb
        rw [this]
    · rw [if_neg hC] at h
      exact Bool.noConfusion (Except.ok.inj h)

/-- A terminal status response drives `pollStatus` (step 3) to return the
fetched payload with guidance attached. -/
theorem statusOut_terminal (s : LoopState) (c : CycleInput) (d : JDict)
    (hresp : c.statusResp = some d)
    (hterm : _is_true_terminal d = .ok true) :
    (statusOut s c).ret =
      some ⟨jset d "_guidance" (build_guidance "get_job_status" d), false⟩ := by
  have hic := terminal_not_intermediate d hterm
  unfold statusOut pollStatus
  rw [hresp]
  dsimp only
  rw [hic]
  dsimp only
  rw [hterm]

/-- C2: whenever a fetched status snapshot is classified as true-terminal
(status preview_complete or failed, or completed with no intermediate-stage
marker in the step text), the cycle emits exactly 100 as its final progress
value and returns the payload (with guidance attached) — for any prior phase
range and last emitted value; the 100 is a literal, not a scaled value. -/
theorem wait_for_job_terminal_emits_exactly_100
    (jid : String) (t : ℤ) (s : LoopState) (c : CycleInput) (d : JDict)
    (hresp : c.statusResp = some d)
    (hterm : _is_true_terminal d = .ok true) :
    (stepCycle jid t s c).emits = [emit_pct s c, 100] ∧
    (stepCycle jid t s c).emits.getLast? = some 100 ∧
    (stepCycle jid t s c).ret =
      some ⟨jset d "_guidance" (build_guidance "get_job_status" d), false⟩ := by
  have hret := statusOut_terminal s c d hresp hterm
  unfold stepCycle
  rw [hret]
  exact ⟨rfl, rfl, rfl⟩

/-- The concrete terminal status body used by the C2 witness. -/
def termD : JDict := [("status", .str "preview_complete")]

/-- The concrete cycle input used by the C2 witness. -/
def termIn : CycleInput := ⟨none, some termD, false⟩

theorem wait_for_job_terminal_emits_exactly_100_witness :
    (stepCycle "job-w2" 600 initState termIn).emits = [emit_pct initState termIn, 100] ∧
    (stepCycle "job-w2" 600 initState termIn).emits.getLast? = some 100 ∧
    (stepCycle "job-w2" 600 initState termIn).ret =
      some ⟨jset termD "_guidance" (build_guidance "get_job_status" termD), false⟩ :=
  wait_for_job_terminal_emits_exactly_100 "job-w2" 600 initState termIn termD rfl (by rfl)

/-- An intermediate-complete classification guarantees the realloc block's
own key extraction `(data.get("current_step") or "").lower()` cannot raise:
a truthy `current_step` already lowered successfully inside the classifier,
and a falsy one falls back to `""`. -/
theorem intermediate_key_ok (d : JDict)
    (h : _is_intermediate_complete d = .ok true) :
    ∃ k, pyLower (pyOr (pyGet d "current_step") (.str "")) = .ok k := by
  by_cases hc : truthy (pyGet d "current_step") = true
  · unfold _is_intermediate_complete at h
    by_cases hs : (!(pyEqStr (pyGet d "status") "completed")) = true
    · rw [if_pos hs] at h
      exact Bool.noConfusion (Except.ok.inj h)
    · rw [if_neg hs] at h
      rw [show pyOr (pyGet d "current_step") (pyOr (pyGet d "step") (.str ""))
            = pyGet d "current_step" from by unfold pyOr; rw [if_pos hc]] at h
      rcases hl : pyLower (pyGet d "current_step") with e | st <;> rw [hl] at h
      · exact Except.noConfusion h
      · refine ⟨st, ?_⟩
        rw [show pyOr (pyGet d "current_step") (.str "")
              = pyGet d "current_step" from by unfold pyOr; rw [if_pos hc]]
        exact hl
  · refine ⟨"", ?_⟩
    rw [show pyOr (pyGet d "current_step") (.str "") = .str "" from by
      unfold pyOr; rw [if_neg hc]]
    rfl

/-- Step 3 on an intermediate-complete snapshot whose key matches the stored
one: the state only records the fetched payload; no reallocation, no return. -/
theorem statusOut_intermediate_old (s : LoopState) (c : CycleInput) (d : JDict) (k : String)
    (hresp : c.statusResp = some d)
    (hic : _is_intermediate_complete d = .ok true)
    (hk : pyLower (pyOr (pyGet d "current_step") (.str "")) = .ok k)
    (hold : (midState s c).last_intermediate_step = some k) :
    statusOut s c = ⟨{ midState s c with data := d }, 0, none⟩ := by
  unfold statusOut pollStatus
  rw [hresp]
  dsimp only
  rw [hic]
  dsimp only
  rw [hk]
  dsimp only
  rw [if_neg ?_]
  intro hne
  exact hne hold.symm

/-- Step 3 on an intermediate-complete snapshot with a NEW key: exactly one
reallocation, the key is stored, `msg_progress` resets to 2, no return. -/
theorem statusOut_intermediate_new (s : LoopState) (c : CycleInput) (d : JDict) (k : String)
    (hresp : c.statusResp = some d)
    (hic : _is_intermediate_complete d = .ok true)
    (hk : pyLower (pyOr (pyGet d "current_step") (.str "")) = .ok k)
    (hnew : some k ≠ (midState s c).last_intermediate_step) :
    statusOut s c =
      ⟨⟨reallocFloor (midState s c).pf (midState s c).pc (midState s c).last_emitted,
        (midState s c).pc, some k, (midState s c).last_seq, (midState s c).cursor_primed,
        2, (midState s c).last_emitted, d⟩, 1, none⟩ := by
  unfold statusOut pollStatus
  rw [hresp]
  dsimp only
  rw [hic]
  dsimp only
  rw [hk]
  dsimp only
  rw [if_pos ?_]
  exact hnew

/-- Once the stored intermediate step equals the repeated snapshot's key, no
further cycle of the run reallocates. -/
theorem runWait_reallocs_zero (jid : String) (t : ℤ) (d : JDict) (k : String)
    (hic : _is_intermediate_complete d = .ok true)
    (hk : pyLower (pyOr (pyGet d "current_step") (.str "")) = .ok k) :
    ∀ (cs : List CycleInput) (s : LoopState), (∀ c ∈ cs, c.statusResp = some d) →
      s.last_intermediate_step = some k → (runWait jid t s cs).reallocs = 0 := by
  intro cs
  induction cs with
  | nil => intro s _ _; rfl
  | cons c cs ih =>
    intro s hall hlis
    have hresp : c.statusResp = some d := hall c (List.mem_cons_self c cs)
    have hmidlis : (midState s c).last_intermediate_step = some k := by
      show (pollMessages s c.msgResp).last_intermediate_step = some k
      rw [(pollMessages_frame s c.msgResp).2.2.2.1, hlis]
    have hso := statusOut_intermediate_old s c d k hresp hic hk hmidlis
    have hre : (stepCycle jid t s c).reallocs = 0 := by
      rw [stepCycle_reallocs_eq, hso]
    have hstlis : (stepCycle jid t s c).state.last_intermediate_step = some k := by
      rw [stepCycle_state_eq, hso]
      exact hmidlis
    unfold runWait
    rcases hr : (stepCycle jid t s c).ret with _ | r <;> dsimp only
    · rw [hre,
        ih (stepCycle jid t s c).state (fun c' hc' => hall c' (List.mem_cons_of_mem c hc')) hstlis]
    · exact hre

/-- Any run fed only copies of one intermediate-complete snapshot performs at
most one reallocation. -/
theorem runWait_reallocs_le_one (jid : String) (t : ℤ) (d : JDict) (k : String)
    (hic : _is_intermediate_complete d = .ok true)
    (hk : pyLower (pyOr (pyGet d "current_step") (.str "")) = .ok k) :
    ∀ (cs : List CycleInput) (s : LoopState), (∀ c ∈ cs, c.statusResp = some d) →
      (runWait jid t s cs).reallocs ≤ 1 := by
  intro cs
  induction cs with
  | nil => intro s _; exact Nat.zero_le 1
  | cons c cs ih =>
    intro s hall
    have hresp : c.statusResp = some d := hall c (List.mem_cons_self c cs)
    have hrest : ∀ c' ∈ cs, c'.statusResp = some d :=
      fun c' hc' => hall c' (List.mem_cons_of_mem c hc')
    by_cases hnew : some k ≠ (midState s c).last_intermediate_step
    · have hso := statusOut_intermediate_new s c d k hresp hic hk hnew
      have hre : (stepCycle jid t s c).reallocs = 1 := by
        rw [stepCycle_reallocs_eq, hso]
      have hstlis : (stepCycle jid t s c).state.last_intermediate_step = some k := by
        rw [stepCycle_state_eq, hso]
      unfold runWait
      rcases hr : (stepCycle jid t s c).ret with _ | r <;> dsimp only
      · rw [hre, runWait_reallocs_zero jid t d k hic hk cs (stepCycle jid t s c).state hrest hstlis]
      · rw [hre]
    · push_neg at hnew
      have hso := statusOut_intermediate_old s c d k hresp hic hk hnew.symm
      have hre : (stepCycle jid t s c).reallocs = 0 := by
        rw [stepCycle_reallocs_eq, hso]
      have hstlis : (stepCycle jid t s c).state.last_intermediate_step = some k := by
        rw [stepCycle_state_eq, hso]
        exact hnew.symm
      unfold runWait
      rcases hr : (stepCycle jid t s c).ret with _ | r <;> dsimp only
      · rw [hre, runWait_reallocs_zero jid t d k hic hk cs (stepCycle jid t s c).state hrest hstlis]
        exact Nat.zero_le 1
      · rw [hre]
        exact Nat.zero_le 1

/-- C3: feeding the same `current_step` string as an intermediate-complete
status snapshot on N consecutive poll cycles triggers at most one range
reallocation — the split is guarded per distinct step value, so a remote
source repeating the same stale snapshot every poll does not keep
compressing the range toward its ceiling. -/
theorem phase_split_at_most_once_for_repeated_step (jid : String) (t : ℤ)
    (d : JDict) (cs : List CycleInput)
    (hall : ∀ c ∈ cs, c.statusResp = some d)
    (hic : _is_intermediate_complete d = .ok true) :
    (runWait jid t initState cs).reallocs ≤ 1 := by
  obtain ⟨k, hk⟩ := intermediate_key_ok d hic
  exact runWait_reallocs_le_one jid t d k hic hk cs initState hall

/-- The repeated intermediate-complete snapshot used by the C3 witness. -/
def interD : JDict := [("status", .str "completed"), ("current_step", .str "Config Generation")]

/-- The repeated cycle input used by the C3 witness. -/
def interIn : CycleInput := ⟨none, some interD, false⟩

theorem phase_split_at_most_once_for_repeated_step_witness :
    (runWait "job-w3" 600 initState [interIn, interIn, interIn]).reallocs ≤ 1 :=
  phase_split_at_most_once_for_repeated_step "job-w3" 600 interD [interIn, interIn, interIn]
    (by intro c hc; fin_cases hc <;> rfl)
    (by rfl)

theorem num_ne_null (q : ℚ) : JVal.num q ≠ .null := fun h => JVal.noConfusion h

theorem isNull_eq_false (v : JVal) (h : v ≠ .null) : isNull v = false := by
  cases v <;> first | exact absurd rfl h | rfl

/-- When the backend reports a (non-`None`) top-level tail, `new_seq` is
exactly that tail — the per-message fallback is not consulted. -/
theorem fetchNewSeq_of_reported (resp : JDict)
    (h : pyGet resp "last_seq" ≠ .null) :
    fetchNewSeq resp = .ok (pyGet resp "last_seq") := by
  have hc : (isNull (pyGet resp "last_seq")
      && truthy (pyOr (pyGet resp "messages") (.arr []))) = false := by
    rw [isNull_eq_false _ h]
    rfl
  unfold fetchNewSeq
  rw [if_neg (by rw [hc]; exact Bool.false_ne_true)]
  rfl

/-- C4: the first message fetch of a wait invocation (unprimed cursor, no
prior sequence) returns zero visible messages even if the backend already
has history, while still advancing the cursor to the backend-reported tail;
a fetch with a non-`None` cursor passes it as the since-filter; every primed
fetch returns the response's messages; and with the backend reporting tails
at or past the cursor (the since-filter contract), the stored cursor never
decreases. -/
theorem cursor_priming_and_advance :
    (∀ (resp : JDict) (out : FetchOut),
        _fetch_messages .null false resp = .ok out →
        out.visible = .arr [] ∧ out.primed = true ∧
        (pyGet resp "last_seq" ≠ .null → out.lastSeq = pyGet resp "last_seq")) ∧
    messageParams .null = none ∧
    (∀ cur : JVal, cur ≠ .null → messageParams cur = some [("since_seq", cur)]) ∧
    (∀ (cur : JVal) (resp : JDict) (out : FetchOut),
        _fetch_messages cur true resp = .ok out →
        out.visible = pyOr (pyGet resp "messages") (.arr [])) ∧
    (∀ (a b : ℚ) (primed : Bool) (resp : JDict) (out : FetchOut),
        pyGet resp "last_seq" = .num b → a ≤ b →
        _fetch_messages (.num a) primed resp = .ok out →
        ∃ q, out.lastSeq = .num q ∧ a ≤ q) := by
  refine ⟨?_, rfl, ?_, ?_, ?_⟩
  · intro resp out h
    unfold _fetch_messages at h
    rcases hx : fetchNewSeq resp with e | ns <;> rw [hx] at h
    · exact Except.noConfusion h
    · have hout := Except.ok.inj h
      subst hout
      refine ⟨rfl, rfl, ?_⟩
      intro hnn
      have hns : ns = pyGet resp "last_seq" :=
        Except.ok.inj (hx.symm.trans (fetchNewSeq_of_reported resp hnn))
      show (if !(isNull ns) then ns else JVal.null) = pyGet resp "last_seq"
      rw [hns, isNull_eq_false _ hnn]
      rfl
  · intro cur hc
    unfold messageParams
    rw [isNull_eq_false _ hc]
    rfl
  · intro cur resp out h
    unfold _fetch_messages at h
    rcases hx : fetchNewSeq resp with e | ns <;> rw [hx] at h
    · exact Except.noConfusion h
    · have hout := Except.ok.inj h
      subst hout
      rfl
  · intro a b primed resp out hb hab h
    unfold _fetch_messages at h
    have hrep := fetchNewSeq_of_reported resp (by rw [hb]; exact num_ne_null b)
    rw [hrep, hb] at h
    refine ⟨b, ?_, hab⟩
    cases primed <;>
      (have hout := Except.ok.inj h
       subst hout
       rfl)

/-- The backend response used by the C4 witness: prior history is present
(one message with `_seq` 5) and the reported tail is 7. -/
def respEx : JDict :=
  [("messages", .arr [.obj [("_seq", .num 5)]]), ("last_seq", .num 7)]

/-- The result of the C4 witness's priming fetch. -/
def fetchOutPrime : FetchOut := ⟨.arr [], .num 7, true⟩

/-- The result of the C4 witness's primed follow-up fetch from cursor 3. -/
def fetchOutNext : FetchOut := ⟨.arr [.obj [("_seq", .num 5)]], .num 7, true⟩

theorem cursor_priming_and_advance_witness :
    fetchOutPrime.visible = .arr [] ∧ fetchOutPrime.primed = true ∧
    fetchOutPrime.lastSeq = pyGet respEx "last_seq" ∧
    messageParams (.num 7) = some [("since_seq", .num 7)] ∧
    fetchOutNext.visible = pyOr (pyGet respEx "messages") (.arr []) ∧
    (∃ q, fetchOutNext.lastSeq = .num q ∧ (3 : ℚ) ≤ q) := by
  have h := cursor_priming_and_advance
  have h1 := h.1 respEx fetchOutPrime rfl
  exact ⟨h1.1, h1.2.1, h1.2.2 (num_ne_null 7), h.2.2.1 (.num 7) (num_ne_null 7),
    h.2.2.2.1 (.num 3) respEx fetchOutNext rfl,
    h.2.2.2.2 3 7 true respEx fetchOutNext rfl (by norm_num) rfl⟩

/-- The candidate formula exactly as the spec sentence states it:
`emitted = floor + clamp(native,0,99)/100 * (ceiling-floor)` with `native`
the extracted message value (or the minimum floor 2 when no message carried
one). Stated from the spec's words, to be compared against `candidate`. -/
def specCandidate (fl ce native : ℚ) : ℚ :=
  fl + (min (max native 0) 99) / 100 * (ce - fl)

/-- C5 counterexample material: a priming response with reported tail 0. -/
def primeResp : JDict := [("messages", .arr []), ("last_seq", .num 0)]

/-- The priming cycle input of the C5 counterexample. -/
def primeIn : CycleInput := ⟨some primeResp, none, false⟩

/-- A response whose single new message carries a legitimate native progress
value of 0. -/
def msg0Resp : JDict :=
  [("messages", .arr [.obj [("message_data", .obj [("progress", .num 0)]), ("_seq", .num 1)]]),
   ("last_seq", .num 1)]

/-- The cycle input delivering the native-0 message. -/
def msg0In : CycleInput := ⟨some msg0Resp, none, false⟩

/-- The loop state after the priming cycle. -/
def sPrimed : LoopState := (stepCycle "job-5" 600 initState primeIn).state

/-- The loop state at the moment cycle 2 computes its candidate: the native
value 0 has been extracted into `msg_progress`. -/
def sNative0 : LoopState := pollMessages sPrimed (some msg0Resp)

/-- C5 fails as stated: at the state reached after a priming cycle and one
message carrying the legitimate native value 0, the code's candidate is
`pf + 2/100*span = 99/50` (the minimum floor 2 is applied to the native
value itself), while the claim's formula
`pf + clamp(native,0,99)/100*span` yields 0. -/
theorem candidate_formula_counterexample :
    sNative0 = pollMessages (stepCycle "job-5" 600 initState primeIn).state msg0In.msgResp ∧
    sNative0.msg_progress = 0 ∧ sNative0.pf = 0 ∧ sNative0.pc = 99 ∧
    candidate sNative0 = 99 / 50 ∧
    specCandidate sNative0.pf sNative0.pc sNative0.msg_progress = 0 ∧
    candidate sNative0 ≠ specCandidate sNative0.pf sNative0.pc sNative0.msg_progress := by
  have hpf : sNative0.pf = 0 := rfl
  have hpc : sNative0.pc = 99 := rfl
  have hmp : sNative0.msg_progress = 0 := rfl
  have hcand : candidate sNative0 = 99 / 50 := by
    unfold candidate _scale_to_range
    rw [hpf, hpc, hmp]
    norm_num [max_def, min_def]
  have hspec : specCandidate sNative0.pf sNative0.pc sNative0.msg_progress = 0 := by
    unfold specCandidate
    rw [hpf, hpc, hmp]
    norm_num [max_def, min_def]
  refine ⟨rfl, hmp, hpf, hpc, hcand, hspec, ?_⟩
  rw [hcand, hspec]
  norm_num

/-- C5 (amended): the candidate before monotone clamping equals
`phase_floor + clamp(max(native, 2), 0, 99)/100 * (phase_ceiling - phase_floor)`
— the minimum floor 2 is applied to the native value itself on every cycle,
not only when no message carries a value — where `native` is the persisted
`msg_progress`: the value extracted from the most recent key-bearing payload
of the newly visible batch (scanned in reverse with an explicit key-presence
check, so a legitimate 0 is found, not skipped), kept from before when the
batch carries none, and initially 2. -/
theorem candidate_formula_amended :
    (∀ s : LoopState, candidate s =
      s.pf + (min (max (max s.msg_progress 2) 0) 99) / 100 * (s.pc - s.pf)) ∧
    (∀ (s : LoopState) (resp : JDict) (out : FetchOut) (q : ℚ),
      _fetch_messages s.last_seq s.cursor_primed resp = .ok out →
      truthy out.visible = true →
      _extract_progress out.visible = .ok (some q) →
      (pollMessages s (some resp)).msg_progress = q) ∧
    (∀ (s : LoopState) (resp : JDict) (out : FetchOut),
      _fetch_messages s.last_seq s.cursor_primed resp = .ok out →
      _extract_progress out.visible = .ok none →
      (pollMessages s (some resp)).msg_progress = s.msg_progress) ∧
    (∀ (ms : List JVal) (fs : JDict),
      firstProgressKey fs = some (.num 0) →
      _extract_progress (.arr (ms ++ [.obj [("message_data", .obj fs)]])) = .ok (some 0)) ∧
    (∀ (jid : String) (t : ℤ) (s : LoopState) (c : CycleInput),
      (stepCycle jid t s c).emits.head? =
        some (max (candidate (pollMessages s c.msgResp)) s.last_emitted)) := by
  refine ⟨fun s => rfl, ?_, ?_, ?_, ?_⟩
  · intro s resp out q hf ht he
    simp only [pollMessages_some, hf, ht, he, if_true]
  · intro s resp out hf he
    simp only [pollMessages_some, hf, he]
    by_cases ht : truthy out.visible = true
    · simp only [ht, if_true]
    · simp only [Bool.eq_false_iff.mpr ht, Bool.false_eq_true, if_false]
  · intro ms fs hkey
    have h1 : pyDotGet (JVal.obj [("message_data", JVal.obj fs)]) "message_data"
        = .ok (.obj fs) := rfl
    have htr : truthy (JVal.obj fs) = true := by
      cases fs with
      | nil => exact Option.noConfusion hkey
      | cons p l => rfl
    unfold _extract_progress
    rw [show pyReversed (.arr (ms ++ [JVal.obj [("message_data", JVal.obj fs)]]))
          = .ok ((ms ++ [JVal.obj [("message_data", JVal.obj fs)]]).reverse) from rfl,
      List.reverse_append]
    show extractLoop (JVal.obj [("message_data", JVal.obj fs)] :: ms.reverse) = .ok (some 0)
    unfold extractLoop
    simp only [h1, htr, hkey, Py_bind_ok, Py_bind_error, Py_pure, pyFloat, if_true]
  · intro jid t s c
    have hle := (pollMessages_frame s c.msgResp).2.2.1
    unfold stepCycle
    rcases hr : (statusOut s c).ret with _ | r <;> dsimp only
    · split <;> (show some (emit_pct s c) = _; unfold emit_pct; rw [hle])
    · show some (emit_pct s c) = _
      unfold emit_pct
      rw [hle]

/-- The fetch outcome of the C5 witness's second cycle. -/
def out5 : FetchOut :=
  ⟨.arr [.obj [("message_data", .obj [("progress", .num 0)]), ("_seq", .num 1)]], .num 1, true⟩

theorem candidate_formula_amended_witness :
    (pollMessages sPrimed (some msg0Resp)).msg_progress = 0 ∧
    candidate sNative0 =
      sNative0.pf + (min (max (max sNative0.msg_progress 2) 0) 99) / 100
        * (sNative0.pc - sNative0.pf) ∧
    _extract_progress (.arr ([] ++ [.obj [("message_data", .obj [("progress", .num 0)])]]))
      = .ok (some 0) := by
  refine ⟨candidate_formula_amended.2.1 sPrimed msg0Resp out5 0 rfl rfl rfl,
    candidate_formula_amended.1 sNative0,
    candidate_formula_amended.2.2.2.1 [] [("progress", .num 0)] rfl⟩

/-- C6: a phase transition triggered by a new intermediate-complete step
value reallocates the range to
`new_floor = max(floor + 0.8*(ceiling - floor), last_emitted + 0.5)` clipped
to `ceiling - 1`, leaves the ceiling unchanged, and thereby preserves the
ProgressRange invariant `floor < ceiling ≤ 99` while the job is
non-terminal. -/
theorem realloc_formula_and_invariant (s : LoopState) (d : JDict) (k : String)
    (hic : _is_intermediate_complete d = .ok true)
    (hk : pyLower (pyOr (pyGet d "current_step") (.str "")) = .ok k)
    (hnew : some k ≠ s.last_intermediate_step)
    (hlt : s.pf < s.pc) (h99 : s.pc ≤ 99) :
    (pollStatus s (some d)).state.pf
        = min (max (s.pf + 8 / 10 * (s.pc - s.pf)) (s.last_emitted + 1 / 2)) (s.pc - 1) ∧
    (pollStatus s (some d)).state.pc = s.pc ∧
    (pollStatus s (some d)).reallocs = 1 ∧
    (pollStatus s (some d)).state.pf < (pollStatus s (some d)).state.pc ∧
    (pollStatus s (some d)).state.pc ≤ 99 := by
  have hps : pollStatus s (some d) =
      ⟨⟨reallocFloor s.pf s.pc s.last_emitted, s.pc, some k, s.last_seq, s.cursor_primed,
        2, s.last_emitted, d⟩, 1, none⟩ := by
    unfold pollStatus
    dsimp only
    rw [hic]
    dsimp only
    rw [hk]
    dsimp only
    rw [if_pos hnew]
  rw [hps]
  refine ⟨?_, rfl, rfl, ?_, h99⟩
  · show reallocFloor s.pf s.pc s.last_emitted = _
    unfold reallocFloor
    rw [show s.pf + (s.pc - s.pf) * (8 / 10) = s.pf + 8 / 10 * (s.pc - s.pf) from by ring]
  · show reallocFloor s.pf s.pc s.last_emitted < s.pc
    exact reallocFloor_lt _ _ _

theorem realloc_formula_and_invariant_witness :
    (pollStatus initState (some interD)).state.pf
        = min (max (initState.pf + 8 / 10 * (initState.pc - initState.pf))
            (initState.last_emitted + 1 / 2)) (initState.pc - 1) ∧
    (pollStatus initState (some interD)).state.pc = initState.pc ∧
    (pollStatus initState (some interD)).reallocs = 1 ∧
    (pollStatus initState (some interD)).state.pf
        < (pollStatus initState (some interD)).state.pc ∧
    (pollStatus initState (some interD)).state.pc ≤ 99 :=
  realloc_formula_and_invariant initState interD "config generation" (by rfl) (by rfl)
    (fun h => Option.noConfusion h) (by norm_num [initState]) (by norm_num [initState])

/-- C7: `build_guidance(operation, last_response)` is pure and total (a
total function of its inputs — no exception escapes): an operation outside
the dispatch table yields the generic no-guidance result with empty
next_steps, and a builder that raises is caught and converted into a
degraded result with an explanatory summary and empty next_steps; a builder
that returns normally passes its result through. -/
theorem build_guidance_total_dispatch (tool_name : String) (api_data : JDict) :
    (_BUILDERS.find? (fun p => p.1 == tool_name) = none →
      build_guidance tool_name api_data =
        .obj [("summary", .str ("No guidance defined for tool '" ++ tool_name ++ "'.")),
              ("next_steps", .arr [])]) ∧
    (∀ b, _BUILDERS.find? (fun p => p.1 == tool_name) = some b →
      (∀ g, b.2 api_data = .ok g → build_guidance tool_name api_data = g) ∧
      (∀ exc, b.2 api_data = .error exc → build_guidance tool_name api_data =
        .obj [("summary", .str ("Guidance error: " ++ exc)), ("next_steps", .arr [])])) := by
  constructor
  · intro h
    unfold build_guidance
    rw [h]
  · intro b hb
    constructor
    · intro g hg
      unfold build_guidance
      rw [hb]
      dsimp only
      rw [hg]
    · intro exc he
      unfold build_guidance
      rw [hb]
      dsimp only
      rw [he]

/-- A conversation response on which `_guidance_get_conversation` raises:
`target_row_count` is a truthy non-numeric string, so `int(target_rows)`
raises ValueError inside the builder. -/
def guidanceErrInput : JDict :=
  [("status", .str "x"), ("next_step", .obj [("action", .str "submit_preview")]),
   ("trigger_execution", .bool true), ("conversation_id", .str "conv_9"),
   ("target_row_count", .str "many")]

theorem build_guidance_total_dispatch_witness :
    build_guidance "definitely_not_a_tool" [] =
      .obj [("summary", .str "No guidance defined for tool 'definitely_not_a_tool'."),
            ("next_steps", .arr [])] ∧
    build_guidance "get_conversation" guidanceErrInput =
      .obj [("summary", .str "Guidance error: ValueError: int"), ("next_steps", .arr [])] := by
  constructor
  · exact (build_guidance_total_dispatch "definitely_not_a_tool" []).1 rfl
  · exact ((build_guidance_total_dispatch "get_conversation" guidanceErrInput).2
      ("get_conversation", _guidance_get_conversation) rfl).2 "ValueError: int" rfl

/-- C8: for every conversation response where a reply is explicitly required
(`user_reply_needed` is truthy) while the status field simultaneously reads
"processing", the guidance is the reply-action recommendation — a single
`send_conversation_reply` next step — not the generic poll-again
recommendation: the reply-needed check runs before the in-progress check.
(`lastMessageOf d = .ok lm` states that reading the final message's content
does not raise, i.e. `messages`, when truthy, is a list ending in an
object — the shape of every conversation response.) -/
theorem reply_priority_over_processing (d : JDict) (lm : JVal)
    (hreply : truthy (pyGetD d "user_reply_needed" (.bool false)) = true)
    (hstatus : pyEqStr (pyGetD d "status" (.str "")) "processing" = true)
    (hmsg : lastMessageOf d = .ok lm) :
    build_guidance "get_conversation" d =
      mkG ("AI is waiting for your reply. Question: " ++ pyStr lm)
        [mkStep "send_conversation_reply"
           [("conversation_id", pyGetD d "conversation_id" (.str "")),
            ("session_id", pyGetD d "session_id" (.str "")),
            ("message", .str "<your answer here>")]
           "Answer the AI's question to continue the interview."] := by
  have hb : _guidance_get_conversation d =
      .ok (mkG ("AI is waiting for your reply. Question: " ++ pyStr lm)
        [mkStep "send_conversation_reply"
           [("conversation_id", pyGetD d "conversation_id" (.str "")),
            ("session_id", pyGetD d "session_id" (.str "")),
            ("message", .str "<your answer here>")]
           "Answer the AI's question to continue the interview."]) := by
    unfold _guidance_get_conversation
    simp only [hreply, if_true, hmsg, Py_bind_ok, Py_pure]
  unfold build_guidance
  rw [show _BUILDERS.find? (fun p => p.1 == "get_conversation")
        = some ("get_conversation", _guidance_get_conversation) from rfl]
  dsimp only
  rw [hb]

/-- The conversation response of the C8 witness: a reply is required while
the status still reads "processing". -/
def replyD : JDict :=
  [("conversation_id", .str "c1"), ("session_id", .str "s1"),
   ("status", .str "processing"), ("user_reply_needed", .bool true),
   ("messages", .arr [.obj [("content", .str "Which columns?")]])]

theorem reply_priority_over_processing_witness :
    build_guidance "get_conversation" replyD =
      mkG ("AI is waiting for your reply. Question: " ++ pyStr (.str "Which columns?"))
        [mkStep "send_conversation_reply"
           [("conversation_id", pyGetD replyD "conversation_id" (.str "")),
            ("session_id", pyGetD replyD "session_id" (.str "")),
            ("message", .str "<your answer here>")]
           "Answer the AI's question to continue the interview."] :=
  reply_priority_over_processing replyD (.str "Which columns?") rfl rfl rfl

/-- The status body this cycle leaves in `data`: the fetched one, or the
previous state's when the fetch raised. -/
def lastFetched (s : LoopState) (c : CycleInput) : JDict :=
  match c.statusResp with
  | some d => d
  | none => s.data

theorem timeoutReturn_eq (jid : String) (t : ℤ) (st : LoopState) :
    timeoutReturn jid t st =
      ⟨jset (jset (timeoutBase jid st.data) "_guidance"
          (build_guidance "get_job_status" (timeoutBase jid st.data)))
        "_wait_timeout" (.str (waitTimeoutMsg t)), true⟩ := rfl

/-- A non-terminal status poll records the fetched body and returns nothing. -/
theorem pollStatus_nonterminal (s : LoopState) (d : JDict)
    (hnt : _is_true_terminal d ≠ .ok true) :
    (pollStatus s (some d)).state.data = d ∧ (pollStatus s (some d)).ret = none := by
  simp only [pollStatus]
  rcases h1 : _is_intermediate_complete d with e | b
  · exact ⟨rfl, rfl⟩
  · cases b
    · rcases h2 : _is_true_terminal d with e2 | b2
      · exact ⟨rfl, rfl⟩
      · cases b2
        · exact ⟨rfl, rfl⟩
        · exact absurd h2 hnt
    · rcases h3 : pyLower (pyOr (pyGet d "current_step") (.str "")) with e3 | k
      · exact ⟨rfl, rfl⟩
      · dsimp only
        split <;> exact ⟨rfl, rfl⟩

/-- With no terminal classification this cycle, `statusOut` leaves the
fetched (or previous) data in place and produces no return. -/
theorem statusOut_nonterminal (s : LoopState) (c : CycleInput)
    (hnoterm : ∀ d, c.statusResp = some d → _is_true_terminal d ≠ .ok true) :
    (statusOut s c).state.data = lastFetched s c ∧ (statusOut s c).ret = none := by
  unfold statusOut lastFetched
  rcases hr : c.statusResp with _ | d
  · have hdata : (midState s c).data = s.data := (pollMessages_frame s c.msgResp).2.2.2.2
    exact ⟨hdata, rfl⟩
  · exact pollStatus_nonterminal (midState s c) d (hnoterm d hr)

/-- When the deadline has passed and no terminal state fired this cycle, the
cycle ends the call with the timeout return built from the status data. -/
theorem stepCycle_ret_timeout (jid : String) (t : ℤ) (s : LoopState) (c : CycleInput)
    (hto : c.timedOut = true)
    (hnone : (statusOut s c).ret = none) :
    (stepCycle jid t s c).ret = some (timeoutReturn jid t (statusOut s c).state) := by
  unfold stepCycle
  rw [hnone]
  dsimp only
  rw [hto]
  rfl

/-- C9: if the configured timeout expires with no terminal state observed,
`wait_for_job` returns — it never raises (`stepCycle` is a total function) —
at the next iteration boundary, handing back the last successfully fetched
job state annotated with the `_wait_timeout` marker (not an error) and its
guidance; all other fields of the payload are exactly the last fetched
state's. -/
theorem timeout_returns_last_state_annotated (jid : String) (t : ℤ)
    (s : LoopState) (c : CycleInput)
    (hto : c.timedOut = true)
    (hnoterm : ∀ d, c.statusResp = some d → _is_true_terminal d ≠ .ok true) :
    ∃ r, (stepCycle jid t s c).ret = some r ∧ r.timedOut = true ∧
      jget? r.data "_wait_timeout" = some (.str (waitTimeoutMsg t)) ∧
      jget? r.data "_guidance" = some (build_guidance "get_job_status"
        (timeoutBase jid (lastFetched s c))) ∧
      ∀ k, k ≠ "_guidance" → k ≠ "_wait_timeout" →
        jget? r.data k = jget? (timeoutBase jid (lastFetched s c)) k := by
  obtain ⟨hdata, hnone⟩ := statusOut_nonterminal s c hnoterm
  refine ⟨timeoutReturn jid t (statusOut s c).state, stepCycle_ret_timeout jid t s c hto hnone,
    rfl, ?_, ?_, ?_⟩
  · rw [timeoutReturn_eq]
    show jget? (jset _ "_wait_timeout" _) "_wait_timeout" = _
    rw [jget?_jset_self]
  · rw [timeoutReturn_eq]
    show jget? (jset (jset _ "_guidance" _) "_wait_timeout" _) "_guidance" = _
    rw [jget?_jset_other _ _ _ _ (by decide), jget?_jset_self, hdata]
  · intro k hk1 hk2
    rw [timeoutReturn_eq]
    show jget? (jset (jset _ "_guidance" _) "_wait_timeout" _) k = _
    rw [jget?_jset_other _ _ _ _ hk2, jget?_jset_other _ _ _ _ hk1, hdata]

/-- The loop state of the C9 witness: one status fetch has already succeeded
with a processing snapshot. -/
def s9 : LoopState :=
  { initState with data := [("job_id", .str "job-w9"), ("status", .str "processing")] }

/-- The C9 witness's cycle input: both fetches raise and the deadline has
passed. -/
def c9In : CycleInput := ⟨none, none, true⟩

theorem timeout_returns_last_state_annotated_witness :
    ∃ r, (stepCycle "job-w9" 600 s9 c9In).ret = some r ∧ r.timedOut = true ∧
      jget? r.data "_wait_timeout" = some (.str (waitTimeoutMsg 600)) ∧
      jget? r.data "_guidance" = some (build_guidance "get_job_status"
        (timeoutBase "job-w9" (lastFetched s9 c9In))) ∧
      ∀ k, k ≠ "_guidance" → k ≠ "_wait_timeout" →
        jget? r.data k = jget? (timeoutBase "job-w9" (lastFetched s9 c9In)) k :=
  timeout_returns_last_state_annotated "job-w9" 600 s9 c9In rfl
    (fun d h => Option.noConfusion h)

/-- With every status fetch of the run raising, any return the run produces
is the placeholder timeout return. -/
theorem runWait_all_status_failed (jid : String) (t : ℤ) :
    ∀ (cs : List CycleInput) (s : LoopState), (∀ c ∈ cs, c.statusResp = none) →
      s.data = [] → ∀ r, (runWait jid t s cs).ret = some r →
      r = ⟨jset (jset (timeoutBase jid []) "_guidance"
            (build_guidance "get_job_status" (timeoutBase jid [])))
          "_wait_timeout" (.str (waitTimeoutMsg t)), true⟩ := by
  intro cs
  induction cs with
  | nil => intro s _ _ r hr; exact Option.noConfusion hr
  | cons c cs ih =>
    intro s hall hdata r hr
    have hresp : c.statusResp = none := hall c (List.mem_cons_self c cs)
    have hmid : (midState s c).data = [] := by
      rw [show (midState s c).data = (pollMessages s c.msgResp).data from rfl,
        (pollMessages_frame s c.msgResp).2.2.2.2, hdata]
    have hso : statusOut s c = ⟨midState s c, 0, none⟩ := by
      unfold statusOut
      rw [hresp]
      rfl
    have hstdata : (stepCycle jid t s c).state.data = [] := by
      rw [stepCycle_state_eq, hso]
      exact hmid
    unfold runWait at hr
    rcases hc : (stepCycle jid t s c).ret with _ | r0
    · rw [hc] at hr
      dsimp only at hr
      exact ih (stepCycle jid t s c).state
        (fun c' hc' => hall c' (List.mem_cons_of_mem c hc')) hstdata r hr
    · rw [hc] at hr
      dsimp only at hr
      have hr0 : r0 = r := Option.some.inj hr
      -- the only possible mid-run return with a failed status fetch is the timeout one
      have : (stepCycle jid t s c).ret = some (timeoutReturn jid t (statusOut s c).state) := by
        by_cases hto : c.timedOut = true
        · exact stepCycle_ret_timeout jid t s c hto (by rw [hso])
        · exfalso
          unfold stepCycle at hc
          rw [show (statusOut s c).ret = none from by rw [hso]] at hc
          dsimp only at hc
          rw [Bool.eq_false_iff.mpr hto] at hc
          exact Option.noConfusion hc
      rw [hc] at this
      have hr0' := Option.some.inj this
      rw [← hr0, hr0', timeoutReturn_eq, hso]
      rw [show (midState s c).data = ([] : JDict) from hmid]

/-- C10: if `wait_for_job` reaches its timeout without any status fetch ever
having succeeded, it still returns a well-formed payload carrying the job_id
and the placeholder status "unknown", together with guidance and the timeout
marker — not an empty object, and (being a total function) no exception. -/
theorem timeout_placeholder_payload (jid : String) (t : ℤ)
    (cs : List CycleInput) (r : WaitReturn)
    (hfail : ∀ c ∈ cs, c.statusResp = none)
    (hret : (runWait jid t initState cs).ret = some r) :
    jget? r.data "job_id" = some (.str jid) ∧
    jget? r.data "status" = some (.str "unknown") ∧
    jget? r.data "_wait_timeout" = some (.str (waitTimeoutMsg t)) ∧
    jget? r.data "_guidance" = some (build_guidance "get_job_status"
      [("job_id", .str jid), ("status", .str "unknown")]) ∧
    r.timedOut = true := by
  have hr := runWait_all_status_failed jid t cs initState hfail rfl r hret
  subst hr
  refine ⟨?_, ?_, ?_, ?_, rfl⟩
  · rw [jget?_jset_other _ _ _ _ (by decide), jget?_jset_other _ _ _ _ (by decide)]
    rfl
  · rw [jget?_jset_other _ _ _ _ (by decide), jget?_jset_other _ _ _ _ (by decide)]
    rfl
  · rw [jget?_jset_self]
  · rw [jget?_jset_other _ _ _ _ (by decide), jget?_jset_self]
    rfl

/-- The run of the C10 witness: a single cycle whose status fetch raises and
whose deadline has passed. -/
def run10 : RunOut := runWait "jobX" 600 initState [⟨none, none, true⟩]

/-- The C10 witness's returned payload. -/
def r10 : WaitReturn := (run10.ret).getD ⟨[], false⟩

theorem timeout_placeholder_payload_witness :
    jget? r10.data "job_id" = some (.str "jobX") ∧
    jget? r10.data "status" = some (.str "unknown") ∧
    jget? r10.data "_wait_timeout" = some (.str (waitTimeoutMsg 600)) ∧
    jget? r10.data "_guidance" = some (build_guidance "get_job_status"
      [("job_id", .str "jobX"), ("status", .str "unknown")]) ∧
    r10.timedOut = true :=
  timeout_placeholder_payload "jobX" 600 [⟨none, none, true⟩] r10
    (by intro c hc; fin_cases hc <;> rfl) rfl

end Hyperplexity
